import Mathlib

/-!
Verification development for the quantitative risk-decision engine of the
isms_project repository.  The engine lives in
src/common/rqmc_sobol_sensitivity_analysis.py (control-sequence optimization)
and src/common/rqmc_vendor_assessment.py (vendor assessment), with HTTP entry
validation in src/routes/user_risk_calc.py.

The embedding works over the rational numbers.  The Python code computes with
IEEE doubles; every concrete scenario examined below involves only small exact
arithmetic (halves, tenths, integers) where double rounding plays no role, and
all universally quantified statements are about the algebraic structure of the
computation, which the rational translation preserves.

The module common/common_stats.py is imported by both engine modules but is
not part of the source tree given here; the handful of small functions the
engine takes from it (calculate_ale, calculate_rosi, the distribution mappers,
the scrambled Sobol stream) are modelled from the specification where needed,
each marked with a doc comment beginning with the words Modelled from the
spec.
-/

namespace ISMS

open scoped List

/-- Modelled from the spec: common_stats.calculate_ale is absent from src.
Per the spec glossary, ALE = asset value times exposure factor times annual
rate of occurrence. -/
def calculate_ale (asset_value ef aro : ℚ) : ℚ :=
  asset_value * ef * aro

/-- Modelled from the spec: common_stats.calculate_rosi is absent from src.
Per the spec, ROSI(%) = ((ALE_before - ALE_after) - cost) / cost * 100. -/
def calculate_rosi (ale_before ale_after cost : ℚ) : ℚ :=
  ((ale_before - ale_after) - cost) / cost * 100

/-- Arithmetic mean of a list of rationals, as np.mean computes it
(sum divided by length; the empty list, which NumPy maps to NaN,
is sent to 0 by rational division by zero). -/
def ratMean (l : List ℚ) : ℚ :=
  l.sum / (l.length : ℚ)

/-- One cell of the compounded cost schedule: the cost of one control in one
year together with the adjustment that produced it, mirroring the inner
dictionaries built by calculate_compounding_costs. -/
structure CostEntry where
  cost : ℚ
  adjustment : ℚ
deriving Repr, DecidableEq, Inhabited

/-- Adjustment computed by calculate_compounding_costs for a control index in
a given year (year is at least 1).  Mirrors lines 177-196 of
rqmc_sobol_sensitivity_analysis.py: block size n_avg =
max(1, num_samples // (num_controls * years)), block start
((year-1)*num_controls + index) * n_avg, column index % (number of columns),
then the mean of the block is rescaled linearly into the adjustment range. -/
def adjustmentFor (numControls : ℕ) (rng : ℚ × ℚ) (years : ℕ)
    (samples : List (List ℚ)) (numSamples : ℕ) (year idx : ℕ) : ℚ :=
  let n_avg := max 1 (numSamples / (numControls * years))
  let start := ((year - 1) * numControls + idx) * n_avg
  let width := (samples.headD []).length
  let column := samples.map (fun r => r.getD (idx % width) 0)
  let block := (column.drop start).take n_avg
  ratMean block * (rng.2 - rng.1) + rng.1

/-- Row of the compounded cost schedule for one year (row y lists the entry of
every control for year y).  Year 0 is the base cost with adjustment 0; year
y+1 derives each cost from the year-y cost as prev + prev * adjustment,
mirroring lines 165-207 of rqmc_sobol_sensitivity_analysis.py. -/
def costRow (control_costs : List ℚ) (rng : ℚ × ℚ) (years : ℕ)
    (samples : List (List ℚ)) (numSamples : ℕ) : ℕ → List CostEntry
  | 0 => control_costs.map (fun c => ⟨c, 0⟩)
  | y + 1 =>
    (List.range control_costs.length).map (fun idx =>
      let adj := adjustmentFor control_costs.length rng years samples numSamples
        (y + 1) idx
      let prev := (costRow control_costs rng years samples numSamples y).getD
        idx default
      ⟨prev.cost + prev.cost * adj, adj⟩)

/-- Full compounded cost schedule, indexed first by year (0..years) and then
by 0-based control index, mirroring the nested dictionary returned by
calculate_compounding_costs (year_y / control_{index+1} keys). -/
def calculate_compounding_costs (control_costs : List ℚ) (rng : ℚ × ℚ)
    (years : ℕ) (samples : List (List ℚ)) (numSamples : ℕ) :
    List (List CostEntry) :=
  (List.range (years + 1)).map (costRow control_costs rng years samples numSamples)

/-- Cost looked up in a schedule at a year and a 1-based control id, the way
the simulation indexes costs[year_y][control_c]. -/
def costEntryAt (costs : List (List CostEntry)) (year control : ℕ) : ℚ :=
  ((costs.getD year []).getD (control - 1) default).cost

/-- Per-year record stored by calculate_statistics_for_permutation_per_year
under the year_{y+1} keys. -/
structure YearEntry where
  ale_before : ℚ
  ale_after : ℚ
  control_cost : ℚ
  total_cost : ℚ
  rosi : ℚ
deriving Repr, DecidableEq, Inhabited

/-- Year-by-year entries for one Monte Carlo draw, mirroring the inner loop of
calculate_statistics_for_permutation_per_year (lines 243-281): the control of
year y is permutation[y]; its cost is read from the schedule at year y+1; the
running total cost sums the year-(y+1) costs of every control applied so far;
ALE after uses the fresh ARO draw of year y reduced by the control; ALE before
is the baseline ALE for year 0 and the previous ALE after for later years.
The first argument counts the years still to produce, the second is the
current 0-based year, the third carries the previous ALE after. -/
def yearEntriesFrom (asset : ℚ) (costs : List (List CostEntry))
    (efRow aroRow : List ℚ) (perm : List ℕ) (reductions : List ℚ) :
    ℕ → ℕ → ℚ → List YearEntry
  | 0, _, _ => []
  | n + 1, y, prevAfter =>
    let control := perm.getD y 0
    let control_cost := costEntryAt costs (y + 1) control
    let total_cost :=
      ((perm.take (y + 1)).map (fun c => costEntryAt costs (y + 1) c)).sum
    let aro_after := aroRow.getD y 0 * (1 - reductions.getD (control - 1) 0)
    let ale_after := calculate_ale asset (efRow.getD y 0) aro_after
    let ale_before :=
      if y = 0 then calculate_ale asset (efRow.getD 0 0) (aroRow.getD 0 0)
      else prevAfter
    let rosi := calculate_rosi ale_before ale_after total_cost
    ⟨ale_before, ale_after, control_cost, total_cost, rosi⟩ ::
      yearEntriesFrom asset costs efRow aroRow perm reductions n (y + 1) ale_after

/-- Year entries of one sample: one entry per year of the permutation. -/
def sampleYearEntries (asset : ℚ) (costs : List (List CostEntry))
    (efRow aroRow : List ℚ) (perm : List ℕ) (reductions : List ℚ) :
    List YearEntry :=
  yearEntriesFrom asset costs efRow aroRow perm reductions perm.length 0 0

/-- Result record for one permutation, mirroring the dictionary returned by
calculate_statistics_for_permutation_per_year: the permutation, the per-year
entries (the Python loop rebuilds the results dictionary every sample, so the
returned per-year entries are the ones of the final sample), and total_rosi. -/
structure PermutationResult where
  permutation : List ℕ
  years : List YearEntry
  total_rosi : ℚ
deriving Repr, DecidableEq, Inhabited

/-- Translation of calculate_statistics_for_permutation_per_year (lines
210-291).  For each sample the per-year ROSI values are summed; total_rosi is
the mean of those sums over all samples, and the per-year entries kept are the
ones of the final sample (index numSims - 1; the Python code faults on zero
samples, and every call site passes the positive module constant). -/
def calculate_statistics_for_permutation_per_year (asset : ℚ)
    (costs : List (List CostEntry)) (ef_samples aro_samples : List (List ℚ))
    (perm : List ℕ) (reductions : List ℚ) (numSims : ℕ) : PermutationResult :=
  let entriesFor := fun i => sampleYearEntries asset costs
    (ef_samples.getD i []) (aro_samples.getD i []) perm reductions
  let totals := (List.range numSims).map
    (fun i => ((entriesFor i).map YearEntry.rosi).sum)
  { permutation := perm
    years := entriesFor (numSims - 1)
    total_rosi := ratMean totals }

/-- Stable descending insertion into a list already sorted descending by the
key: the new element passes every element with a strictly larger key and stops
in front of the first element whose key is not larger, so earlier-inserted
equal keys stay in front. -/
def insertDescBy (key : α → ℚ) (x : α) : List α → List α
  | [] => [x]
  | y :: ys => if key x < key y then y :: insertDescBy key x ys else x :: y :: ys

/-- Stable descending sort by a rational key.  The Python code sorts with
sorted(..., key=..., reverse=True), which is a stable descending sort; any two
stable sorts with the same key agree, so this insertion sort computes the same
list. -/
def sortDescBy (key : α → ℚ) : List α → List α
  | [] => []
  | x :: xs => insertDescBy key x (sortDescBy key xs)

/-- Stable ascending insertion, counterpart of insertDescBy. -/
def insertAscBy (key : α → ℚ) (x : α) : List α → List α
  | [] => [x]
  | y :: ys => if key y < key x then y :: insertAscBy key x ys else x :: y :: ys

/-- Stable ascending sort by a rational key, the image of
sorted(..., key=...) with reverse left False. -/
def sortAscBy (key : α → ℚ) : List α → List α
  | [] => []
  | x :: xs => insertAscBy key x (sortAscBy key xs)

/-- All ways to select one element out of a list, each paired with the
remaining elements in order: selections [a,b,c] = [(a,[b,c]), (b,[a,c]),
(c,[a,b])].  This is the recursion scheme behind itertools.permutations. -/
def selections : List ℕ → List (ℕ × List ℕ)
  | [] => []
  | x :: xs => (x, xs) :: (selections xs).map (fun p => (p.1, x :: p.2))

/-- Fuel-indexed enumeration of permutations; with fuel equal to the length of
the list it yields exactly the tuples of itertools.permutations in the same
lexicographic-by-position order. -/
def permsFuel : ℕ → List ℕ → List (List ℕ)
  | 0, _ => [[]]
  | n + 1, l => (selections l).flatMap
      (fun p => (permsFuel n p.2).map (fun q => p.1 :: q))

/-- Enumeration order of itertools.permutations over a list. -/
def itertoolsPermutations (l : List ℕ) : List (List ℕ) :=
  permsFuel l.length l

/-- Module constant RANDOM_SEED = 42, shared by both engine modules. -/
def RANDOM_SEED : ℕ := 42

/-- Module constant NUM_SAMPLES = 16384 (2 to the 14th). -/
def NUM_SAMPLES : ℕ := 16384

/-- Module constant KURTOSIS = 1.7. -/
def KURTOSIS : ℚ := 17 / 10

/-- Sobol sensitivity record for one parameter: first-order and total-order
indices with their bootstrap confidence values. -/
structure SensRecord where
  S1 : ℚ
  S1_conf : ℚ
  ST : ℚ
  ST_conf : ℚ
deriving Repr, DecidableEq, Inhabited

/-- Modelled from the spec: the numeric Sobol indices are produced by the
external SALib analyzer on model evaluations; no claim proved in this file
depends on the numeric values, only on which parameters appear, so the record
carries placeholder zeros. -/
def sensPlaceholder : SensRecord := ⟨0, 0, 0, 0⟩

/-- Translation of perform_sensitivity_analysis of
rqmc_sobol_sensitivity_analysis.py (lines 428-511) at the level claims need:
each of EF, ARO and cost_variance enters the problem only when its range does
not collapse; when every parameter is fixed the function returns empty
results, otherwise one record per varying parameter. -/
def performSensitivityAnalysisSeq (ef aro costadj : ℚ × ℚ) :
    List (String × SensRecord) :=
  let problem :=
    (if ef.1 = ef.2 then [] else [("EF", ef)]) ++
    (if aro.1 = aro.2 then [] else [("ARO", aro)]) ++
    (if costadj.1 = costadj.2 then [] else [("cost_variance", costadj)])
  match problem with
  | [] => []
  | vs => vs.map (fun p => (p.1, sensPlaceholder))

/-- Translation of perform_sensitivity_analysis of rqmc_vendor_assessment.py
(lines 221-305): EF, ARO and each control_reduction_{i+1} enter the problem
only when the range does not collapse; all fixed gives empty results. -/
def performSensitivityAnalysisVendor (ef aro : ℚ × ℚ)
    (rrs : List (ℚ × ℚ)) : List (String × SensRecord) :=
  let problem :=
    (if ef.1 = ef.2 then [] else [("EF", ef)]) ++
    (if aro.1 = aro.2 then [] else [("ARO", aro)]) ++
    ((List.range rrs.length).filterMap (fun i =>
      let r := rrs.getD i (0, 0)
      if r.1 = r.2 then none
      else some ("control_reduction_" ++ toString (i + 1), r)))
  match problem with
  | [] => []
  | vs => vs.map (fun p => (p.1, sensPlaceholder))

/-- Modelled from the spec: the scrambled Sobol sample matrix comes from the
SALib sampler plus the randomize_sobol_samples scrambler of the missing
common_stats module.  It is a deterministic function of the seed with
numSamples * (D + 1) rows (the row count the spec documents for samplers with
second-order interactions disabled) whose columns are scaled into the bounds
of the varying parameters.  A placeholder stream stands in for the actual
low-discrepancy values: no claim proved below depends on the values, only on
determinism, on the row count, and on degenerate bounds yielding constants. -/
def sobolScrambledMatrix (seed : ℕ) (bounds : List (ℚ × ℚ))
    (numSamples : ℕ) : List (List ℚ) :=
  let dims := bounds.length
  (List.range (numSamples * (dims + 1))).map (fun r =>
    (List.range dims).map (fun c =>
      let u : ℚ := (((r * dims + c + 7919 * seed) % 97 : ℕ) : ℚ) / 97
      let b := bounds.getD c (0, 1)
      b.1 + u * (b.2 - b.1)))

/-- Modelled from the spec: common_stats.simulate_exposure_factor_sobol maps
samples through the quantile of a Beta distribution parameterized by the
kurtosis and rescales linearly into the exposure-factor range.  The Beta
quantile is kept as the identity map here: every concrete scenario examined
below fixes the range to a point, where any range-preserving map returns the
constant, and no other claim depends on the mapped values. -/
def simulate_exposure_factor_sobol (slice : List (List ℚ)) (rng : ℚ × ℚ)
    (_kurtosis : ℚ) : List (List ℚ) :=
  slice.map (fun row => row.map (fun u => rng.1 + u * (rng.2 - rng.1)))

/-- Modelled from the spec: common_stats.simulate_annual_rate_of_occurrence_sobol
maps samples through a Poisson-shaped quantile at sub-integer resolution into
the ARO range; modelled with the identity in place of the quantile, which is
exact for point ranges (the only case whose values matter below). -/
def simulate_annual_rate_of_occurrence_sobol (slice : List (List ℚ))
    (rng : ℚ × ℚ) : List (List ℚ) :=
  slice.map (fun row => row.map (fun u => rng.1 + u * (rng.2 - rng.1)))

/-- Clip of a rational into an interval, as np.clip orders its operations. -/
def ratClip (x lo hi : ℚ) : ℚ := max lo (min x hi)

/-- Modelled from the spec: common_stats.simulate_control_effectiveness_sobol
rescales samples uniformly into the effectiveness range and clips to the
range to absorb floating-point overshoot of the scrambling step. -/
def simulate_control_effectiveness_sobol (col : List ℚ) (rng : ℚ × ℚ) :
    List ℚ :=
  col.map (fun u => ratClip (rng.1 + u * (rng.2 - rng.1)) rng.1 rng.2)

/-- Arguments of simulate_control_sequence_optimization that shape its result
(the output-file arguments only route the result and are omitted). -/
structure SeqParams where
  asset_value : ℚ
  ef_range : ℚ × ℚ
  aro_range : ℚ × ℚ
  control_costs : List ℚ
  cost_adjustment_range : ℚ × ℚ
  control_reductions : List ℚ
  num_years : ℕ
  kurtosis : ℚ := KURTOSIS
  num_samples : ℕ := NUM_SAMPLES
deriving Repr, DecidableEq

/-- Result structure assembled by simulate_control_sequence_optimization
(lines 1007-1026): the echoed parameters, the best permutation with its ROSI
and the cost schedule, the ranked permutations, and the sensitivity results. -/
structure SeqOutput where
  simulation_parameters : SeqParams
  best_permutation : List ℕ
  best_rosi : ℚ
  control_cost_values : List (List CostEntry)
  ranked_permutations : List PermutationResult
  sensitivity_results : List (String × SensRecord)
deriving Repr, DecidableEq

/-- Ranked permutation list built by simulate_control_sequence_optimization
(lines 972-992): evaluate every ordering of controls 1..num_years in
itertools order, then sort by total ROSI descending with the stable Python
sort. -/
def rankedPermutations (asset : ℚ) (costs : List (List CostEntry))
    (ef_samples aro_samples : List (List ℚ)) (reductions : List ℚ)
    (numYears numSamples : ℕ) : List PermutationResult :=
  sortDescBy PermutationResult.total_rosi
    ((itertoolsPermutations (List.range' 1 numYears)).map (fun perm =>
      calculate_statistics_for_permutation_per_year asset costs ef_samples
        aro_samples perm reductions numSamples))

/-- Translation of simulate_control_sequence_optimization (lines 831-1047)
with the seed explicit.  The slices follow the column-counter loops of lines
939-963: Sobol columns are consumed in the order EF years, ARO years, COST
years, skipping any group whose range is fixed, and fixed groups are filled
with the range minimum.  The Sobol matrix is truncated to the first
num_samples rows (lines 935-937). -/
def simulateControlSequenceWithSeed (seed : ℕ) (p : SeqParams) : SeqOutput :=
  let efFixed := p.ef_range.1 = p.ef_range.2
  let aroFixed := p.aro_range.1 = p.aro_range.2
  let costFixed := p.cost_adjustment_range.1 = p.cost_adjustment_range.2
  let efCols := if efFixed then 0 else p.num_years
  let aroCols := if aroFixed then 0 else p.num_years
  let bounds :=
    (if efFixed then [] else List.replicate p.num_years p.ef_range) ++
    (if aroFixed then [] else List.replicate p.num_years p.aro_range) ++
    (if costFixed then [] else List.replicate p.num_years p.cost_adjustment_range)
  let sobol := (sobolScrambledMatrix seed bounds p.num_samples).take p.num_samples
  let ef_slice := (List.range p.num_samples).map (fun r =>
    (List.range p.num_years).map (fun i =>
      if efFixed then p.ef_range.1 else (sobol.getD r []).getD i 0))
  let aro_slice := (List.range p.num_samples).map (fun r =>
    (List.range p.num_years).map (fun i =>
      if aroFixed then p.aro_range.1 else (sobol.getD r []).getD (efCols + i) 0))
  let cost_adj_slice := (List.range p.num_samples).map (fun r =>
    (List.range p.num_years).map (fun i =>
      if costFixed then p.cost_adjustment_range.1
      else (sobol.getD r []).getD (efCols + aroCols + i) 0))
  let ef_samples := simulate_exposure_factor_sobol ef_slice p.ef_range p.kurtosis
  let aro_samples := simulate_annual_rate_of_occurrence_sobol aro_slice p.aro_range
  let control_cost_values := calculate_compounding_costs p.control_costs
    p.cost_adjustment_range p.num_years cost_adj_slice p.num_samples
  let ranked := rankedPermutations p.asset_value control_cost_values ef_samples
    aro_samples p.control_reductions p.num_years p.num_samples
  { simulation_parameters := p
    best_permutation := (ranked.headD default).permutation
    best_rosi := (ranked.headD default).total_rosi
    control_cost_values := control_cost_values
    ranked_permutations := ranked
    sensitivity_results := performSensitivityAnalysisSeq p.ef_range p.aro_range
      p.cost_adjustment_range }

/-- Entry point of the sequencing problem.  The Python function takes no seed
argument; every source of randomness inside it is seeded with the module
constant RANDOM_SEED. -/
def simulate_control_sequence_optimization (p : SeqParams) : SeqOutput :=
  simulateControlSequenceWithSeed RANDOM_SEED p

/-- Arguments of simulate_vendor_assessment_decision that shape its result. -/
structure VendorParams where
  asset_value : ℚ
  ef_range : ℚ × ℚ
  aro_range : ℚ × ℚ
  control_costs : List ℚ
  control_reduction_ranges : List (ℚ × ℚ)
  num_vendors : ℕ
  kurtosis : ℚ := KURTOSIS
  num_samples : ℕ := NUM_SAMPLES
deriving Repr, DecidableEq

/-- Distributional summary computed per vendor (lines 787-841 of
rqmc_vendor_assessment.py).  The source also stores a KDE-estimated mode with
its share, a standard deviation and a percentile ladder for each of the three
sample arrays; those need the Gaussian KDE and the square root of the missing
common_stats module and real-valued arithmetic, are referenced by no claim,
and are left out of the rational embedding. -/
structure VendorStat where
  vendor_id : ℕ
  control_cost : ℚ
  control_reduction_range : ℚ × ℚ
  mean_ale_before : ℚ
  median_ale_before : ℚ
  mean_ale_after : ℚ
  median_ale_after : ℚ
  mean_ale_reduction : ℚ
  mean_rosi : ℚ
  median_rosi : ℚ
deriving Repr, DecidableEq, Inhabited

/-- Median as np.median computes it: midpoint of the sorted list, averaging
the two central elements when the length is even. -/
def ratMedian (l : List ℚ) : ℚ :=
  let s := sortAscBy id l
  if l.length % 2 = 1 then s.getD (l.length / 2) 0
  else (s.getD (l.length / 2 - 1) 0 + s.getD (l.length / 2) 0) / 2

/-- Result structure assembled by simulate_vendor_assessment_decision: the
results dictionary is created with the keys input_parameters,
vendor_statistics, best_vendor and most_effective_vendor (lines 629-643) and
the key sensitivity_analysis is added at line 870. -/
structure VendorOutput where
  input_parameters : VendorParams
  vendor_statistics : List VendorStat
  best_vendor : List ℕ
  most_effective_vendor : List ℕ
  sensitivity_analysis : List (String × SensRecord)
deriving Repr, DecidableEq

/-- Per-vendor statistics loop of simulate_vendor_assessment_decision (lines
760-841): draw num_samples realizations of ALE before, ALE after (ARO scaled
by one minus the effectiveness draw of the vendor) and ROSI, then aggregate
(the embedded subset of the aggregates is discussed at VendorStat). -/
def vendorStatFor (asset : ℚ) (control_costs : List ℚ) (rrs : List (ℚ × ℚ))
    (ef_samples aro_samples control_reduction_samples : List (List ℚ))
    (numSamples v : ℕ) : VendorStat :=
  let aleBefore := (List.range numSamples).map (fun s =>
    calculate_ale asset ((ef_samples.getD s []).getD v 0)
      ((aro_samples.getD s []).getD v 0))
  let aleAfter := (List.range numSamples).map (fun s =>
    calculate_ale asset ((ef_samples.getD s []).getD v 0)
      (((aro_samples.getD s []).getD v 0) *
        (1 - (control_reduction_samples.getD s []).getD v 0)))
  let rosiVals := (List.range numSamples).map (fun s =>
    calculate_rosi (aleBefore.getD s 0) (aleAfter.getD s 0)
      (control_costs.getD v 0))
  { vendor_id := v + 1
    control_cost := control_costs.getD v 0
    control_reduction_range := rrs.getD v (0, 0)
    mean_ale_before := ratMean aleBefore
    median_ale_before := ratMedian aleBefore
    mean_ale_after := ratMean aleAfter
    median_ale_after := ratMedian aleAfter
    mean_ale_reduction := (ratMean aleBefore - ratMean aleAfter) / ratMean aleBefore
    mean_rosi := ratMean rosiVals
    median_rosi := ratMedian rosiVals }

/-- Indices of the effectiveness ranges that vary (lines 654-658: a range is
fixed when its two endpoints are equal). -/
def vendorVaryingJs (p : VendorParams) : List ℕ :=
  (List.range p.control_reduction_ranges.length).filter
    (fun j => !((p.control_reduction_ranges.getD j (0, 0)).1 =
      (p.control_reduction_ranges.getD j (0, 0)).2 : Bool))

/-- Bounds of the combined Sobol problem in column-consumption order: EF
vendors, ARO vendors, then per vendor the varying effectiveness ranges
(lines 682-704). -/
def vendorBounds (p : VendorParams) : List (ℚ × ℚ) :=
  (if p.ef_range.1 = p.ef_range.2 then []
    else List.replicate p.num_vendors p.ef_range) ++
  (if p.aro_range.1 = p.aro_range.2 then []
    else List.replicate p.num_vendors p.aro_range) ++
  ((List.range p.num_vendors).flatMap (fun _ =>
    (vendorVaryingJs p).map (fun j => p.control_reduction_ranges.getD j (0, 0))))

/-- Scrambled Sobol matrix of the vendor entry, truncated to the first
num_samples rows (lines 705-709). -/
def vendorSobol (seed : ℕ) (p : VendorParams) : List (List ℚ) :=
  (sobolScrambledMatrix seed (vendorBounds p) p.num_samples).take p.num_samples

/-- Exposure-factor draws of the vendor entry: the EF slice is filled with
Sobol columns or the fixed value (lines 721-726) and mapped through the EF
sampler (line 742). -/
def vendorEfSamples (seed : ℕ) (p : VendorParams) : List (List ℚ) :=
  simulate_exposure_factor_sobol
    ((List.range p.num_samples).map (fun r =>
      (List.range p.num_vendors).map (fun i =>
        if p.ef_range.1 = p.ef_range.2 then p.ef_range.1
        else ((vendorSobol seed p).getD r []).getD i 0)))
    p.ef_range p.kurtosis

/-- ARO draws of the vendor entry (lines 727-732, 743). -/
def vendorAroSamples (seed : ℕ) (p : VendorParams) : List (List ℚ) :=
  simulate_annual_rate_of_occurrence_sobol
    ((List.range p.num_samples).map (fun r =>
      (List.range p.num_vendors).map (fun i =>
        if p.aro_range.1 = p.aro_range.2 then p.aro_range.1
        else ((vendorSobol seed p).getD r []).getD
          ((if p.ef_range.1 = p.ef_range.2 then 0 else p.num_vendors) + i) 0)))
    p.aro_range

/-- Column 0 of the effectiveness slice of range j (lines 733-739 fill the
slice; lines 746-749 read only its column 0, the vendor-0 column). -/
def vendorRedSliceCol0 (seed : ℕ) (p : VendorParams) (j : ℕ) : List ℚ :=
  (List.range p.num_samples).map (fun r =>
    if (p.control_reduction_ranges.getD j (0, 0)).1 =
        (p.control_reduction_ranges.getD j (0, 0)).2 then
      (p.control_reduction_ranges.getD j (0, 0)).1
    else ((vendorSobol seed p).getD r []).getD
      ((if p.ef_range.1 = p.ef_range.2 then 0 else p.num_vendors) +
        (if p.aro_range.1 = p.aro_range.2 then 0 else p.num_vendors) +
        0 * (vendorVaryingJs p).length + (vendorVaryingJs p).indexOf j) 0)

/-- Effectiveness draws: per range the slice column is mapped through the
uniform effectiveness sampler (lines 746-749) and the result is clipped again
to the declared range (lines 752-757). -/
def vendorRedSamples (seed : ℕ) (p : VendorParams) : List (List ℚ) :=
  (List.range p.num_samples).map (fun r =>
    (List.range p.control_reduction_ranges.length).map (fun j =>
      ratClip ((simulate_control_effectiveness_sobol
          (vendorRedSliceCol0 seed p j)
          (p.control_reduction_ranges.getD j (0, 0))).getD r 0)
        (p.control_reduction_ranges.getD j (0, 0)).1
        (p.control_reduction_ranges.getD j (0, 0)).2))

/-- Translation of simulate_vendor_assessment_decision (lines 573-890) with
the seed explicit: per-vendor statistics over the three sample matrices,
the two rankings (best by mean ROSI descending, most effective by mean ALE
after ascending, lines 843-857), and the sensitivity results. -/
def simulateVendorAssessmentWithSeed (seed : ℕ) (p : VendorParams) :
    VendorOutput :=
  let stats := (List.range p.num_vendors).map (vendorStatFor p.asset_value
    p.control_costs p.control_reduction_ranges (vendorEfSamples seed p)
    (vendorAroSamples seed p) (vendorRedSamples seed p) p.num_samples)
  { input_parameters := p
    vendor_statistics := stats
    best_vendor := (sortDescBy VendorStat.mean_rosi stats).map VendorStat.vendor_id
    most_effective_vendor :=
      (sortAscBy VendorStat.mean_ale_after stats).map VendorStat.vendor_id
    sensitivity_analysis := performSensitivityAnalysisVendor p.ef_range
      p.aro_range p.control_reduction_ranges }

/-- Entry point of the vendor problem; like the sequencing entry point it
takes no seed argument and seeds everything with RANDOM_SEED. -/
def simulate_vendor_assessment_decision (p : VendorParams) : VendorOutput :=
  simulateVendorAssessmentWithSeed RANDOM_SEED p

/-- Vendor statistic produced when every range is a point: every sample draw
collapses to the range minimum, so each statistic is the corresponding point
value.  Used to state the degenerate-scenario collapse lemma for the vendor
entry point. -/
def vendorPointStat (p : VendorParams) (v : ℕ) : VendorStat :=
  let red := ((List.range p.control_reduction_ranges.length).map
    (fun j => (p.control_reduction_ranges.getD j (0, 0)).1)).getD v 0
  let aleB := calculate_ale p.asset_value p.ef_range.1 p.aro_range.1
  let aleA := calculate_ale p.asset_value p.ef_range.1 (p.aro_range.1 * (1 - red))
  let rosi := calculate_rosi aleB aleA (p.control_costs.getD v 0)
  { vendor_id := v + 1
    control_cost := p.control_costs.getD v 0
    control_reduction_range := p.control_reduction_ranges.getD v (0, 0)
    mean_ale_before := aleB
    median_ale_before := aleB
    mean_ale_after := aleA
    median_ale_after := aleA
    mean_ale_reduction := (aleB - aleA) / aleB
    mean_rosi := rosi
    median_rosi := rosi }

/-- Query arguments of the sequencing HTTP route
get_rqmc_control_sequence_analysis of src/routes/user_risk_calc.py. -/
structure SeqQuery where
  asset_value : ℚ
  exposure_factor_min : ℚ
  exposure_factor_max : ℚ
  annual_rate_of_occurrence_min : ℚ
  annual_rate_of_occurrence_max : ℚ
  cost_adjustment_min : ℚ
  cost_adjustment_max : ℚ
  control_reductions : List ℚ
  control_costs : List ℚ
deriving Repr, DecidableEq

/-- Validation performed by the sequencing route before it calls the engine
(user_risk_calc.py lines 90-103): list lengths must match, at least one
control, reductions within [0, 0.99], costs positive.  The route performs no
min-versus-max comparison on any of the three ranges. -/
def seqRouteValidate (q : SeqQuery) : Except String Unit :=
  if q.control_reductions.length ≠ q.control_costs.length then
    .error "Control reductions and costs lists must have the same length"
  else if q.control_reductions = [] then
    .error "At least one control must be provided"
  else if ¬ (∀ r ∈ q.control_reductions, 0 ≤ r ∧ r ≤ 99 / 100) then
    .error "Control reductions must be between 0 and 0.99"
  else if ¬ (∀ c ∈ q.control_costs, 0 < c) then
    .error "Control costs must be greater than 0"
  else
    .ok ()

/-- Query arguments of the vendor HTTP route get_rqmc_vendor_assessment. -/
structure VendorQuery where
  asset_value : ℚ
  exposure_factor_min : ℚ
  exposure_factor_max : ℚ
  annual_rate_of_occurrence_min : ℚ
  annual_rate_of_occurrence_max : ℚ
  control_costs : List ℚ
  control_reduction_mins : List ℚ
  control_reduction_maxs : List ℚ
deriving Repr, DecidableEq

/-- Validation performed by the vendor route before it calls the engine
(user_risk_calc.py lines 141-162): matching list lengths, at least one
control, EF and ARO minima not above maxima, every reduction range satisfying
0 <= min <= max <= 0.99 with the control index in the message, positive
costs with the index in the message. -/
def vendorRouteValidate (q : VendorQuery) : Except String Unit :=
  if ¬ (q.control_costs.length = q.control_reduction_mins.length ∧
      q.control_reduction_mins.length = q.control_reduction_maxs.length) then
    .error "Control costs and reduction lists must have the same length"
  else if q.control_costs = [] then
    .error "At least one control must be provided"
  else if q.exposure_factor_min > q.exposure_factor_max then
    .error "Exposure factor minimum must be less than or equal to maximum"
  else if q.annual_rate_of_occurrence_min > q.annual_rate_of_occurrence_max then
    .error "Annual rate of occurrence minimum must be less than or equal to maximum"
  else if ¬ (∀ i ∈ List.range q.control_reduction_mins.length,
      0 ≤ q.control_reduction_mins.getD i 0 ∧
      q.control_reduction_mins.getD i 0 ≤ q.control_reduction_maxs.getD i 0 ∧
      q.control_reduction_maxs.getD i 0 ≤ 99 / 100) then
    .error "Control reduction range invalid"
  else if ¬ (∀ c ∈ q.control_costs, 0 < c) then
    .error "Control cost must be greater than 0"
  else
    .ok ()

/-- JSON-like value tree, the shape of the serializable result the entry
points hand back when output_json_response is set. -/
inductive J where
  | num (q : ℚ)
  | nat (n : ℕ)
  | str (s : String)
  | arr (xs : List J)
  | obj (fields : List (String × J))

/-- Top-level keys of a JSON object value. -/
def J.topKeys : J → List String
  | .obj fs => fs.map Prod.fst
  | _ => []

/-- Serialization of one cost schedule cell. -/
def costEntryJson (e : CostEntry) : J :=
  .obj [("cost", .num e.cost), ("adjustment", .num e.adjustment)]

/-- Serialization of the cost schedule with its year_y and control_{i+1}
keys. -/
def costScheduleJson (costs : List (List CostEntry)) : J :=
  .obj ((List.range costs.length).map (fun y =>
    ("year_" ++ toString y,
      J.obj ((List.range (costs.getD y []).length).map (fun i =>
        ("control_" ++ toString (i + 1),
          costEntryJson ((costs.getD y []).getD i default)))))))

/-- Serialization of one per-year record. -/
def yearEntryJson (e : YearEntry) : J :=
  .obj [("ale_before", .num e.ale_before), ("ale_after", .num e.ale_after),
    ("control_cost", .num e.control_cost), ("total_cost", .num e.total_cost),
    ("rosi", .num e.rosi)]

/-- Serialization of one permutation result with its permutation, total_rosi
and year_{y+1} keys, in the insertion order of the Python dictionary. -/
def permutationResultJson (r : PermutationResult) : J :=
  .obj (("permutation", J.arr (r.permutation.map J.nat)) ::
    ("total_rosi", J.num r.total_rosi) ::
    (List.range r.years.length).map (fun i =>
      ("year_" ++ toString (i + 1), yearEntryJson (r.years.getD i default))))

/-- Serialization of sensitivity results. -/
def sensJson (s : List (String × SensRecord)) : J :=
  .obj (s.map (fun p => (p.1,
    J.obj [("S1", .num p.2.S1), ("S1_conf", .num p.2.S1_conf),
      ("ST", .num p.2.ST), ("ST_conf", .num p.2.ST_conf)])))

/-- Serialization of the sequencing result, mirroring the exported_results
dictionary literal of lines 1007-1026 and convert_to_serializable, which
rewrites values but never keys. -/
def seqExportJson (o : SeqOutput) : J :=
  .obj [
    ("simulation_parameters", .obj [
      ("asset_value", .num o.simulation_parameters.asset_value),
      ("ef_range", .arr [.num o.simulation_parameters.ef_range.1,
        .num o.simulation_parameters.ef_range.2]),
      ("aro_range", .arr [.num o.simulation_parameters.aro_range.1,
        .num o.simulation_parameters.aro_range.2]),
      ("control_reductions",
        .arr (o.simulation_parameters.control_reductions.map J.num)),
      ("control_costs", .arr (o.simulation_parameters.control_costs.map J.num)),
      ("cost_adjustment_range",
        .arr [.num o.simulation_parameters.cost_adjustment_range.1,
          .num o.simulation_parameters.cost_adjustment_range.2]),
      ("num_samples", .nat o.simulation_parameters.num_samples),
      ("num_years", .nat o.simulation_parameters.num_years),
      ("kurtosis", .num o.simulation_parameters.kurtosis)]),
    ("results", .obj [
      ("best_permutation", .arr (o.best_permutation.map J.nat)),
      ("best_rosi", .num o.best_rosi),
      ("control_cost_values", costScheduleJson o.control_cost_values)]),
    ("ranked_permutations", .arr (o.ranked_permutations.map permutationResultJson)),
    ("sensitivity_results", sensJson o.sensitivity_results)]

/-- Serialization of one vendor statistic (the fields carried by the
embedding; the key set of the source additionally holds the KDE mode, the
standard deviation and the percentile ladder discussed at VendorStat). -/
def vendorStatJson (s : VendorStat) : J :=
  .obj [("vendor_id", .nat s.vendor_id), ("control_cost", .num s.control_cost),
    ("control_reduction_ranges", .arr [.num s.control_reduction_range.1,
      .num s.control_reduction_range.2]),
    ("mean_ale_before", .num s.mean_ale_before),
    ("median_ale_before", .num s.median_ale_before),
    ("mean_ale_after", .num s.mean_ale_after),
    ("median_ale_after", .num s.median_ale_after),
    ("mean_ale_reduction", .num s.mean_ale_reduction),
    ("mean_rosi", .num s.mean_rosi), ("median_rosi", .num s.median_rosi)]

/-- Serialization of the vendor result: the top-level keys are the four keys
of the results dictionary literal of lines 629-643 in insertion order plus
sensitivity_analysis appended at line 870. -/
def vendorExportJson (o : VendorOutput) : J :=
  .obj [
    ("input_parameters", .obj [
      ("asset_value", .num o.input_parameters.asset_value),
      ("ef_range", .arr [.num o.input_parameters.ef_range.1,
        .num o.input_parameters.ef_range.2]),
      ("aro_range", .arr [.num o.input_parameters.aro_range.1,
        .num o.input_parameters.aro_range.2]),
      ("control_reduction_ranges", .arr (o.input_parameters.control_reduction_ranges.map
        (fun r => J.arr [.num r.1, .num r.2]))),
      ("control_costs", .arr (o.input_parameters.control_costs.map J.num)),
      ("num_vendors", .nat o.input_parameters.num_vendors),
      ("num_samples", .nat o.input_parameters.num_samples),
      ("kurtosis", .num o.input_parameters.kurtosis)]),
    ("vendor_statistics", .arr (o.vendor_statistics.map vendorStatJson)),
    ("best_vendor", .arr (o.best_vendor.map J.nat)),
    ("most_effective_vendor", .arr (o.most_effective_vendor.map J.nat)),
    ("sensitivity_analysis", sensJson o.sensitivity_analysis)]

/-- Degenerate sequencing scenario of the spec testable-properties section:
asset 100000, EF fixed 0.5, ARO fixed 1, zero cost adjustment, controls
(cost 1000, reduction 0.5) and (cost 2000, reduction 0.3); defaults for
kurtosis and sample count. -/
def seqFixedExample : SeqParams :=
  { asset_value := 100000
    ef_range := (1/2, 1/2)
    aro_range := (1, 1)
    control_costs := [1000, 2000]
    cost_adjustment_range := (0, 0)
    control_reductions := [1/2, 3/10]
    num_years := 2 }

/-- Degenerate vendor scenario of the spec testable-properties section:
asset 100000, EF fixed 0.5, ARO fixed 1, vendor A (cost 5000, reduction fixed
0.5), vendor B (cost 500, reduction fixed 0.3). -/
def vendorFixedExample : VendorParams :=
  { asset_value := 100000
    ef_range := (1/2, 1/2)
    aro_range := (1, 1)
    control_costs := [5000, 500]
    control_reduction_ranges := [(1/2, 1/2), (3/10, 3/10)]
    num_vendors := 2 }

/-- Sequencing route query whose EF range is reversed (minimum 0.6 above
maximum 0.4) while every other field satisfies the route checks. -/
def seqBadRangeQuery : SeqQuery :=
  { asset_value := 100000
    exposure_factor_min := 3/5
    exposure_factor_max := 2/5
    annual_rate_of_occurrence_min := 1
    annual_rate_of_occurrence_max := 1
    cost_adjustment_min := 0
    cost_adjustment_max := 0
    control_reductions := [1/2]
    control_costs := [1000] }

/-- Vendor route query whose EF range is reversed. -/
def vendorBadRangeQuery : VendorQuery :=
  { asset_value := 100000
    exposure_factor_min := 3/5
    exposure_factor_max := 2/5
    annual_rate_of_occurrence_min := 1
    annual_rate_of_occurrence_max := 1
    control_costs := [1000]
    control_reduction_mins := [1/2]
    control_reduction_maxs := [2/5] }

/-- Cumulative cost as the claim under examination words it (each control
applied in year k contributes the cost compounded to year k, the year of its
application).  This definition follows the claim text, not the source; the
source is translated in yearEntriesFrom, which values every applied control at
the cost table of the current year. -/
def claimedCumulativeCost (costs : List (List CostEntry)) (perm : List ℕ)
    (y : ℕ) : ℚ :=
  ((List.range (y + 1)).map (fun k => costEntryAt costs (k + 1)
    (perm.getD k 0))).sum

/-! Helper lemmas: means of constant lists, maps over ranges, and the stable
sorts. -/

theorem ratMean_replicate {n : ℕ} (hn : n ≠ 0) (c : ℚ) :
    ratMean (List.replicate n c) = c := by
  have hn0 : (n : ℚ) ≠ 0 := by exact_mod_cast hn
  simp only [ratMean, List.sum_replicate, List.length_replicate, nsmul_eq_mul]
  rw [mul_comm, mul_div_assoc, div_self hn0, mul_one]

theorem map_range_eq_replicate {n : ℕ} {f : ℕ → α} {c : α}
    (h : ∀ i < n, f i = c) : (List.range n).map f = List.replicate n c := by
  rw [List.eq_replicate_iff]
  constructor
  · simp
  · intro b hb
    rcases List.mem_map.1 hb with ⟨i, hi, rfl⟩
    exact h i (List.mem_range.1 hi)

theorem getD_replicate_of_lt {n i : ℕ} (h : i < n) (c d : α) :
    (List.replicate n c).getD i d = c := by
  rw [List.getD_eq_getElem?_getD, List.getElem?_replicate_of_lt h]
  rfl

theorem ratMedian_replicate {n : ℕ} (hn : n ≠ 0) (c : ℚ) :
    ratMedian (List.replicate n c) = c := by
  have hsort : ∀ m : ℕ, sortAscBy id (List.replicate m c) = List.replicate m c := by
    intro m
    induction m with
    | zero => simp [sortAscBy]
    | succ k ih =>
      rw [List.replicate_succ, sortAscBy, ih]
      cases k with
      | zero => simp [insertAscBy]
      | succ j => simp [List.replicate_succ, insertAscBy]
  unfold ratMedian
  simp only [hsort, List.length_replicate]
  by_cases hpar : n % 2 = 1
  · rw [if_pos hpar, getD_replicate_of_lt (Nat.div_lt_self (Nat.pos_of_ne_zero hn)
      one_lt_two) c 0]
  · rw [if_neg hpar]
    have hhalf : n / 2 < n := Nat.div_lt_self (Nat.pos_of_ne_zero hn) one_lt_two
    rw [getD_replicate_of_lt hhalf c 0, getD_replicate_of_lt (by omega) c 0]
    ring

theorem insertDescBy_perm (key : α → ℚ) (x : α) (l : List α) :
    insertDescBy key x l ~ x :: l := by
  induction l with
  | nil => simp [insertDescBy]
  | cons y ys ih =>
    unfold insertDescBy
    by_cases h : key x < key y
    · rw [if_pos h]
      exact (ih.cons y).trans (List.Perm.swap x y ys)
    · rw [if_neg h]

theorem sortDescBy_perm (key : α → ℚ) (l : List α) : sortDescBy key l ~ l := by
  induction l with
  | nil => simp [sortDescBy]
  | cons x xs ih =>
    unfold sortDescBy
    exact (insertDescBy_perm key x (sortDescBy key xs)).trans (ih.cons x)

theorem length_sortDescBy (key : α → ℚ) (l : List α) :
    (sortDescBy key l).length = l.length :=
  (sortDescBy_perm key l).length_eq

theorem insertDescBy_pairwise (key : α → ℚ) (x : α) {l : List α}
    (h : l.Pairwise (fun a b => key b ≤ key a)) :
    (insertDescBy key x l).Pairwise (fun a b => key b ≤ key a) := by
  induction l with
  | nil => simp [insertDescBy]
  | cons y ys ih =>
    rcases List.pairwise_cons.1 h with ⟨hy, hys⟩
    unfold insertDescBy
    by_cases hxy : key x < key y
    · rw [if_pos hxy]
      refine List.pairwise_cons.2 ⟨?_, ih hys⟩
      intro b hb
      rcases List.mem_cons.1 ((insertDescBy_perm key x ys).mem_iff.1 hb) with rfl | hb2
      · exact le_of_lt hxy
      · exact hy b hb2
    · rw [if_neg hxy]
      refine List.pairwise_cons.2 ⟨?_, h⟩
      intro b hb
      rcases List.mem_cons.1 hb with rfl | hb2
      · exact not_lt.1 hxy
      · exact le_trans (hy b hb2) (not_lt.1 hxy)

theorem sortDescBy_pairwise (key : α → ℚ) (l : List α) :
    (sortDescBy key l).Pairwise (fun a b => key b ≤ key a) := by
  induction l with
  | nil => simp [sortDescBy]
  | cons x xs ih => exact insertDescBy_pairwise key x ih

theorem sublist_insertDescBy (key : α → ℚ) (x : α) (l : List α) :
    l <+ insertDescBy key x l := by
  induction l with
  | nil => simp [insertDescBy]
  | cons y ys ih =>
    unfold insertDescBy
    by_cases h : key x < key y
    · rw [if_pos h]
      exact ih.cons₂ y
    · rw [if_neg h]
      exact (List.sublist_cons_self x (y :: ys))

theorem pair_sublist_insertDescBy {key : α → ℚ} {x b : α} {l : List α}
    (hb : b ∈ l) (hkey : ¬ key x < key b) : [x, b] <+ insertDescBy key x l := by
  induction l with
  | nil => cases hb
  | cons y ys ih =>
    unfold insertDescBy
    by_cases h : key x < key y
    · rw [if_pos h]
      rcases List.mem_cons.1 hb with rfl | hb2
      · exact absurd h hkey
      · exact (ih hb2).cons y
    · rw [if_neg h]
      have hby : [b] <+ y :: ys := List.singleton_sublist.2 hb
      exact hby.cons₂ x

theorem pair_sublist_sortDescBy {key : α → ℚ} {a b : α} {l : List α}
    (h : [a, b] <+ l) (hkey : key a = key b) : [a, b] <+ sortDescBy key l := by
  induction l with
  | nil => cases h
  | cons x xs ih =>
    rw [sortDescBy]
    cases h with
    | cons _ h2 =>
      exact (ih h2).trans (sublist_insertDescBy key x (sortDescBy key xs))
    | cons₂ _ h2 =>
      have hb : b ∈ sortDescBy key xs :=
        (sortDescBy_perm key xs).mem_iff.2 (List.singleton_sublist.1 h2)
      exact pair_sublist_insertDescBy hb (by rw [hkey]; exact lt_irrefl _)

/-! Lemmas about the enumeration of permutations. -/

theorem selections_perm {l : List ℕ} {p : ℕ × List ℕ} (h : p ∈ selections l) :
    l ~ p.1 :: p.2 := by
  induction l generalizing p with
  | nil => cases h
  | cons x xs ih =>
    rcases List.mem_cons.1 h with rfl | h2
    · rfl
    · rcases List.mem_map.1 h2 with ⟨q, hq, rfl⟩
      exact ((ih hq).cons x).trans (List.Perm.swap q.1 x q.2)

theorem selections_fst_mem {l : List ℕ} {p : ℕ × List ℕ}
    (h : p ∈ selections l) : p.1 ∈ l :=
  (selections_perm h).mem_iff.2 (List.mem_cons_self _ _)

theorem mem_selections_of_mem {l : List ℕ} {a : ℕ} (h : a ∈ l) :
    (a, l.erase a) ∈ selections l := by
  induction l with
  | nil => cases h
  | cons x xs ih =>
    by_cases hax : x = a
    · subst hax
      rw [List.erase_cons_head]
      exact List.mem_cons_self _ _
    · have ha : a ∈ xs := by
        rcases List.mem_cons.1 h with rfl | h2
        · exact absurd rfl hax
        · exact h2
      rw [List.erase_cons_tail (by simpa using hax)]
      refine List.mem_cons.2 (Or.inr ?_)
      exact List.mem_map.2 ⟨(a, xs.erase a), ih ha, rfl⟩

theorem length_selections (l : List ℕ) : (selections l).length = l.length := by
  induction l with
  | nil => rfl
  | cons x xs ih => simp [selections, ih]

theorem selections_pairwise_fst_ne {l : List ℕ} (h : l.Nodup) :
    (selections l).Pairwise (fun p q => p.1 ≠ q.1) := by
  induction l with
  | nil => simp [selections]
  | cons x xs ih =>
    rcases List.pairwise_cons.1 h with ⟨hx, hxs⟩
    refine List.pairwise_cons.2 ⟨?_, ?_⟩
    · intro q hq
      rcases List.mem_map.1 hq with ⟨r, hr, rfl⟩
      exact fun hxr => hx r.1 (selections_fst_mem hr) hxr
    · rw [List.pairwise_map]
      exact ih hxs

theorem length_permsFuel : ∀ {n : ℕ} {l : List ℕ}, l.length = n →
    (permsFuel n l).length = n.factorial := by
  intro n
  induction n with
  | zero => intro l _; rfl
  | succ n ih =>
    intro l hl
    rw [permsFuel, List.flatMap_def, List.length_flatten, List.map_map]
    have hmap : (selections l).map (List.length ∘ fun p =>
        (permsFuel n p.2).map (fun q => p.1 :: q)) =
        List.replicate (selections l).length n.factorial := by
      rw [← List.map_const']
      refine List.map_congr_left ?_
      intro p hp
      have hp2 : p.2.length = n := by
        have hlp := (selections_perm hp).length_eq
        simp only [List.length_cons] at hlp
        omega
      simp [ih hp2]
    rw [hmap, List.sum_replicate, smul_eq_mul, length_selections, hl,
      Nat.factorial_succ]

theorem mem_permsFuel : ∀ {n : ℕ} {l q : List ℕ}, l.length = n →
    (q ∈ permsFuel n l ↔ q ~ l) := by
  intro n
  induction n with
  | zero =>
    intro l q hl
    rw [List.length_eq_zero.1 hl]
    simp [permsFuel, List.perm_nil]
  | succ n ih =>
    intro l q hl
    rw [permsFuel]
    constructor
    · intro hq
      rcases List.mem_flatMap.1 hq with ⟨p, hp, hq2⟩
      rcases List.mem_map.1 hq2 with ⟨q0, hq0, rfl⟩
      have hp2 : p.2.length = n := by
        have hlp := (selections_perm hp).length_eq
        simp only [List.length_cons] at hlp
        omega
      have hq0p : q0 ~ p.2 := (ih hp2).1 hq0
      exact ((hq0p.cons p.1).trans (selections_perm hp).symm)
    · intro hq
      have hqlen : q.length = n + 1 := by rw [hq.length_eq, hl]
      rcases q with _ | ⟨a, q0⟩
      · simp at hqlen
      · have ha : a ∈ l := hq.mem_iff.1 (List.mem_cons_self _ _)
        have hsel := mem_selections_of_mem ha
        have herase : q0 ~ l.erase a :=
          (hq.trans (List.perm_cons_erase ha)).cons_inv
        have hlen2 : (l.erase a).length = n := by
          have hlp := (selections_perm hsel).length_eq
          simp only [List.length_cons] at hlp
          omega
        refine List.mem_flatMap.2 ⟨(a, l.erase a), hsel, ?_⟩
        exact List.mem_map.2 ⟨q0, (ih hlen2).2 herase, rfl⟩

theorem nodup_permsFuel : ∀ {n : ℕ} {l : List ℕ}, l.length = n → l.Nodup →
    (permsFuel n l).Nodup := by
  intro n
  induction n with
  | zero => intro l _ _; simp [permsFuel]
  | succ n ih =>
    intro l hl hnd
    rw [permsFuel]
    rw [List.nodup_flatMap]
    constructor
    · intro p hp
      have hp2 : p.2.length = n := by
        have hlp := (selections_perm hp).length_eq
        simp only [List.length_cons] at hlp
        omega
      have hpnd : p.2.Nodup :=
        (((selections_perm hp).nodup hnd).sublist (List.sublist_cons_self _ _))
      refine List.Nodup.map ?_ (ih hp2 hpnd)
      intro u v huv
      simpa using huv
    · refine (selections_pairwise_fst_ne hnd).imp ?_
      intro p q hne
      intro x hx1 hx2
      rcases List.mem_map.1 hx1 with ⟨u, _, rfl⟩
      rcases List.mem_map.1 hx2 with ⟨v, _, hv⟩
      have hheads : q.1 = p.1 := by
        have hts := congrArg (fun s => s.headD 0) hv
        simpa using hts
      exact hne hheads.symm

theorem length_itertoolsPermutations (l : List ℕ) :
    (itertoolsPermutations l).length = l.length.factorial :=
  length_permsFuel rfl

theorem mem_itertoolsPermutations {l q : List ℕ} :
    q ∈ itertoolsPermutations l ↔ q ~ l :=
  mem_permsFuel rfl

theorem nodup_itertoolsPermutations {l : List ℕ} (h : l.Nodup) :
    (itertoolsPermutations l).Nodup :=
  nodup_permsFuel rfl h


/-! Collapse lemmas for degenerate (point) ranges. -/

theorem adjustmentFor_fixed {numControls : ℕ} {rng : ℚ × ℚ} {years : ℕ}
    {samples : List (List ℚ)} {numSamples year idx : ℕ} (h : rng.1 = rng.2) :
    adjustmentFor numControls rng years samples numSamples year idx = rng.1 := by
  simp only [adjustmentFor]
  rw [← h, sub_self, mul_zero, zero_add]

theorem costRow_const {control_costs : List ℚ} {rng : ℚ × ℚ} {years : ℕ}
    {samples : List (List ℚ)} {numSamples : ℕ} (h : rng.1 = rng.2) (y : ℕ) :
    costRow control_costs rng years samples numSamples y =
      control_costs.map (fun c =>
        ⟨c * (1 + rng.1) ^ y, if y = 0 then 0 else rng.1⟩) := by
  induction y with
  | zero =>
    rw [costRow]
    refine List.map_congr_left ?_
    intro c _
    simp
  | succ y ih =>
    rw [costRow]
    refine List.ext_getElem (by simp) ?_
    intro i h1 h2
    simp only [List.getElem_map, List.getElem_range, adjustmentFor_fixed h, ih]
    have hi : i < control_costs.length := by simpa using h1
    have hprev : (control_costs.map (fun c =>
        (⟨c * (1 + rng.1) ^ y, if y = 0 then 0 else rng.1⟩ : CostEntry))).getD
        i default = ⟨control_costs[i] * (1 + rng.1) ^ y,
          if y = 0 then 0 else rng.1⟩ := by
      rw [List.getD_eq_getElem?_getD, List.getElem?_eq_getElem (by simpa using hi)]
      simp
    rw [hprev]
    simp only [if_neg (Nat.succ_ne_zero y)]
    refine congrArg₂ CostEntry.mk ?_ rfl
    ring

theorem calculate_compounding_costs_const {control_costs : List ℚ}
    {rng : ℚ × ℚ} {years : ℕ} {samples : List (List ℚ)} {numSamples : ℕ}
    (h : rng.1 = rng.2) :
    calculate_compounding_costs control_costs rng years samples numSamples =
      (List.range (years + 1)).map (fun y => control_costs.map (fun c =>
        ⟨c * (1 + rng.1) ^ y, if y = 0 then 0 else rng.1⟩)) := by
  unfold calculate_compounding_costs
  exact List.map_congr_left (fun y _ => costRow_const h y)

theorem stats_replicate_collapse {asset : ℚ} {costs : List (List CostEntry)}
    {perm : List ℕ} {reductions : List ℚ} {n : ℕ} (hn : n ≠ 0)
    (er ar : List ℚ) :
    calculate_statistics_for_permutation_per_year asset costs
      (List.replicate n er) (List.replicate n ar) perm reductions n =
      { permutation := perm
        years := sampleYearEntries asset costs er ar perm reductions
        total_rosi := ((sampleYearEntries asset costs er ar perm
          reductions).map YearEntry.rosi).sum } := by
  unfold calculate_statistics_for_permutation_per_year
  have hlast : n - 1 < n := by omega
  have hmap : (List.range n).map (fun i =>
      ((sampleYearEntries asset costs ((List.replicate n er).getD i [])
        ((List.replicate n ar).getD i []) perm reductions).map
        YearEntry.rosi).sum) =
      List.replicate n (((sampleYearEntries asset costs er ar perm
        reductions).map YearEntry.rosi).sum) := by
    refine map_range_eq_replicate ?_
    intro i hi
    rw [getD_replicate_of_lt hi, getD_replicate_of_lt hi]
  simp only [hmap, ratMean_replicate hn, getD_replicate_of_lt hlast]

theorem simulateSeq_allFixed (seed : ℕ) (p : SeqParams)
    (hef : p.ef_range.1 = p.ef_range.2) (haro : p.aro_range.1 = p.aro_range.2)
    (hcost : p.cost_adjustment_range.1 = p.cost_adjustment_range.2) :
    simulateControlSequenceWithSeed seed p =
      { simulation_parameters := p
        best_permutation := ((rankedPermutations p.asset_value
          (calculate_compounding_costs p.control_costs p.cost_adjustment_range
            p.num_years (List.replicate p.num_samples
              (List.replicate p.num_years p.cost_adjustment_range.1))
            p.num_samples)
          (List.replicate p.num_samples (List.replicate p.num_years p.ef_range.1))
          (List.replicate p.num_samples (List.replicate p.num_years p.aro_range.1))
          p.control_reductions p.num_years p.num_samples).headD
            default).permutation
        best_rosi := ((rankedPermutations p.asset_value
          (calculate_compounding_costs p.control_costs p.cost_adjustment_range
            p.num_years (List.replicate p.num_samples
              (List.replicate p.num_years p.cost_adjustment_range.1))
            p.num_samples)
          (List.replicate p.num_samples (List.replicate p.num_years p.ef_range.1))
          (List.replicate p.num_samples (List.replicate p.num_years p.aro_range.1))
          p.control_reductions p.num_years p.num_samples).headD
            default).total_rosi
        control_cost_values := calculate_compounding_costs p.control_costs
          p.cost_adjustment_range p.num_years (List.replicate p.num_samples
            (List.replicate p.num_years p.cost_adjustment_range.1))
          p.num_samples
        ranked_permutations := rankedPermutations p.asset_value
          (calculate_compounding_costs p.control_costs p.cost_adjustment_range
            p.num_years (List.replicate p.num_samples
              (List.replicate p.num_years p.cost_adjustment_range.1))
            p.num_samples)
          (List.replicate p.num_samples (List.replicate p.num_years p.ef_range.1))
          (List.replicate p.num_samples (List.replicate p.num_years p.aro_range.1))
          p.control_reductions p.num_years p.num_samples
        sensitivity_results := [] } := by
  simp [simulateControlSequenceWithSeed, performSensitivityAnalysisSeq,
    simulate_exposure_factor_sobol, simulate_annual_rate_of_occurrence_sobol,
    hef, haro, hcost, List.map_const']

theorem ratClip_same (x c : ℚ) : ratClip x c c = c :=
  max_eq_left (min_le_right x c)

theorem vendorStatFor_replicate {asset : ℚ} {costs : List ℚ}
    {rrs : List (ℚ × ℚ)} {rowE rowA rowC : List ℚ} {ns : ℕ} (hns : ns ≠ 0)
    (v : ℕ) :
    vendorStatFor asset costs rrs (List.replicate ns rowE)
      (List.replicate ns rowA) (List.replicate ns rowC) ns v =
      { vendor_id := v + 1
        control_cost := costs.getD v 0
        control_reduction_range := rrs.getD v (0, 0)
        mean_ale_before := calculate_ale asset (rowE.getD v 0) (rowA.getD v 0)
        median_ale_before := calculate_ale asset (rowE.getD v 0) (rowA.getD v 0)
        mean_ale_after := calculate_ale asset (rowE.getD v 0)
          ((rowA.getD v 0) * (1 - rowC.getD v 0))
        median_ale_after := calculate_ale asset (rowE.getD v 0)
          ((rowA.getD v 0) * (1 - rowC.getD v 0))
        mean_ale_reduction := (calculate_ale asset (rowE.getD v 0) (rowA.getD v 0) -
          calculate_ale asset (rowE.getD v 0) ((rowA.getD v 0) * (1 - rowC.getD v 0))) /
          calculate_ale asset (rowE.getD v 0) (rowA.getD v 0)
        mean_rosi := calculate_rosi
          (calculate_ale asset (rowE.getD v 0) (rowA.getD v 0))
          (calculate_ale asset (rowE.getD v 0) ((rowA.getD v 0) * (1 - rowC.getD v 0)))
          (costs.getD v 0)
        median_rosi := calculate_rosi
          (calculate_ale asset (rowE.getD v 0) (rowA.getD v 0))
          (calculate_ale asset (rowE.getD v 0) ((rowA.getD v 0) * (1 - rowC.getD v 0)))
          (costs.getD v 0) } := by
  have hB : (List.range ns).map (fun s =>
      calculate_ale asset (((List.replicate ns rowE).getD s []).getD v 0)
        (((List.replicate ns rowA).getD s []).getD v 0)) =
      List.replicate ns (calculate_ale asset (rowE.getD v 0) (rowA.getD v 0)) := by
    refine map_range_eq_replicate ?_
    intro i hi
    rw [getD_replicate_of_lt hi, getD_replicate_of_lt hi]
  have hA : (List.range ns).map (fun s =>
      calculate_ale asset (((List.replicate ns rowE).getD s []).getD v 0)
        ((((List.replicate ns rowA).getD s []).getD v 0) *
          (1 - ((List.replicate ns rowC).getD s []).getD v 0))) =
      List.replicate ns (calculate_ale asset (rowE.getD v 0)
        ((rowA.getD v 0) * (1 - rowC.getD v 0))) := by
    refine map_range_eq_replicate ?_
    intro i hi
    rw [getD_replicate_of_lt hi, getD_replicate_of_lt hi, getD_replicate_of_lt hi]
  have hR : (List.range ns).map (fun s =>
      calculate_rosi ((List.replicate ns (calculate_ale asset (rowE.getD v 0)
          (rowA.getD v 0))).getD s 0)
        ((List.replicate ns (calculate_ale asset (rowE.getD v 0)
          ((rowA.getD v 0) * (1 - rowC.getD v 0)))).getD s 0)
        (costs.getD v 0)) =
      List.replicate ns (calculate_rosi
        (calculate_ale asset (rowE.getD v 0) (rowA.getD v 0))
        (calculate_ale asset (rowE.getD v 0) ((rowA.getD v 0) * (1 - rowC.getD v 0)))
        (costs.getD v 0)) := by
    refine map_range_eq_replicate ?_
    intro i hi
    rw [getD_replicate_of_lt hi, getD_replicate_of_lt hi]
  simp only [vendorStatFor, hB, hA, hR, ratMean_replicate hns,
    ratMedian_replicate hns]

theorem vendorEfSamples_fixed (seed : ℕ) (p : VendorParams)
    (hef : p.ef_range.1 = p.ef_range.2) :
    vendorEfSamples seed p = List.replicate p.num_samples
      (List.replicate p.num_vendors p.ef_range.1) := by
  simp [vendorEfSamples, simulate_exposure_factor_sobol, hef, List.map_const']

theorem vendorAroSamples_fixed (seed : ℕ) (p : VendorParams)
    (haro : p.aro_range.1 = p.aro_range.2) :
    vendorAroSamples seed p = List.replicate p.num_samples
      (List.replicate p.num_vendors p.aro_range.1) := by
  simp [vendorAroSamples, simulate_annual_rate_of_occurrence_sobol, haro,
    List.map_const']

theorem vendorRedSamples_allFixed (seed : ℕ) (p : VendorParams)
    (hrrs : ∀ r ∈ p.control_reduction_ranges, r.1 = r.2) :
    vendorRedSamples seed p = List.replicate p.num_samples
      ((List.range p.control_reduction_ranges.length).map
        (fun j => (p.control_reduction_ranges.getD j (0, 0)).1)) := by
  have hall : ∀ j : ℕ, (p.control_reduction_ranges[j]?.getD 0).1 =
      (p.control_reduction_ranges[j]?.getD 0).2 := by
    intro j
    by_cases hj : j < p.control_reduction_ranges.length
    · rw [List.getElem?_eq_getElem hj]
      exact hrrs _ (List.getElem_mem hj)
    · rw [List.getElem?_eq_none (by omega)]
      rfl
  simp [vendorRedSamples, hall, ratClip_same, List.map_const']

theorem performSensitivityAnalysisVendor_allFixed {ef aro : ℚ × ℚ}
    {rrs : List (ℚ × ℚ)} (hef : ef.1 = ef.2) (haro : aro.1 = aro.2)
    (hrrs : ∀ r ∈ rrs, r.1 = r.2) :
    performSensitivityAnalysisVendor ef aro rrs = [] := by
  have hnil : (List.range rrs.length).filterMap (fun i =>
      if (rrs.getD i (0, 0)).1 = (rrs.getD i (0, 0)).2 then none
      else some ("control_reduction_" ++ toString (i + 1), rrs.getD i (0, 0))) =
      [] := by
    rw [List.filterMap_eq_nil_iff]
    intro i hi
    have hilt : i < rrs.length := List.mem_range.1 hi
    have : (rrs.getD i (0, 0)).1 = (rrs.getD i (0, 0)).2 := by
      rw [List.getD_eq_getElem?_getD, List.getElem?_eq_getElem hilt]
      exact hrrs _ (List.getElem_mem hilt)
    rw [if_pos this]
  simp only [performSensitivityAnalysisVendor]
  rw [if_pos hef, if_pos haro, hnil]
  rfl

theorem simulateVendor_allFixed (seed : ℕ) (p : VendorParams)
    (hef : p.ef_range.1 = p.ef_range.2) (haro : p.aro_range.1 = p.aro_range.2)
    (hrrs : ∀ r ∈ p.control_reduction_ranges, r.1 = r.2)
    (hns : p.num_samples ≠ 0) :
    simulateVendorAssessmentWithSeed seed p =
      { input_parameters := p
        vendor_statistics := (List.range p.num_vendors).map (vendorPointStat p)
        best_vendor := (sortDescBy VendorStat.mean_rosi
          ((List.range p.num_vendors).map (vendorPointStat p))).map
            VendorStat.vendor_id
        most_effective_vendor := (sortAscBy VendorStat.mean_ale_after
          ((List.range p.num_vendors).map (vendorPointStat p))).map
            VendorStat.vendor_id
        sensitivity_analysis := [] } := by
  have hstats : (List.range p.num_vendors).map (vendorStatFor p.asset_value
      p.control_costs p.control_reduction_ranges
      (List.replicate p.num_samples (List.replicate p.num_vendors p.ef_range.1))
      (List.replicate p.num_samples (List.replicate p.num_vendors p.aro_range.1))
      (List.replicate p.num_samples
        ((List.range p.control_reduction_ranges.length).map
          (fun j => (p.control_reduction_ranges.getD j (0, 0)).1)))
      p.num_samples) =
      (List.range p.num_vendors).map (vendorPointStat p) := by
    refine List.map_congr_left ?_
    intro v hv
    have hvlt : v < p.num_vendors := List.mem_range.1 hv
    rw [vendorStatFor_replicate hns v]
    have hgE : (List.replicate p.num_vendors p.ef_range.1)[v]?.getD 0 =
        p.ef_range.1 := by
      rw [List.getElem?_eq_getElem (by simpa using hvlt)]
      simp
    have hgA : (List.replicate p.num_vendors p.aro_range.1)[v]?.getD 0 =
        p.aro_range.1 := by
      rw [List.getElem?_eq_getElem (by simpa using hvlt)]
      simp
    simp [vendorPointStat, hgE, hgA]
  simp only [simulateVendorAssessmentWithSeed]
  rw [vendorEfSamples_fixed seed p hef, vendorAroSamples_fixed seed p haro,
    vendorRedSamples_allFixed seed p hrrs, hstats,
    performSensitivityAnalysisVendor_allFixed hef haro hrrs]

/-! Access lemmas for the cost schedule. -/

theorem schedule_getD (control_costs : List ℚ) (rng : ℚ × ℚ) (years : ℕ)
    (samples : List (List ℚ)) (numSamples : ℕ) {y : ℕ} (hy : y ≤ years) :
    (calculate_compounding_costs control_costs rng years samples
      numSamples).getD y [] =
      costRow control_costs rng years samples numSamples y := by
  unfold calculate_compounding_costs
  rw [List.getD_eq_getElem?_getD,
    List.getElem?_eq_getElem (by simpa using Nat.lt_succ_of_le hy)]
  simp

theorem costRow_succ_getD (control_costs : List ℚ) (rng : ℚ × ℚ) (years : ℕ)
    (samples : List (List ℚ)) (numSamples : ℕ) {y idx : ℕ}
    (hidx : idx < control_costs.length) :
    (costRow control_costs rng years samples numSamples (y + 1)).getD idx
      default =
      ⟨((costRow control_costs rng years samples numSamples y).getD idx
          default).cost +
        ((costRow control_costs rng years samples numSamples y).getD idx
          default).cost *
          adjustmentFor control_costs.length rng years samples numSamples
            (y + 1) idx,
        adjustmentFor control_costs.length rng years samples numSamples
          (y + 1) idx⟩ := by
  rw [costRow]
  rw [List.getD_eq_getElem?_getD, List.getElem?_eq_getElem (by simpa using hidx)]
  simp

/-- C7: in every scenario the compounded cost schedule has, for every control,
year-0 cost equal to the declared base cost with adjustment 0 regardless of
the samples; and for every year y+1 and control index, the adjustment is the
mean of the dynamically sized sample block of that (year, control) slot (block
size max(1, sample_count / (num_controls * num_years)), which is the full
declared size whenever the sample budget covers all slots), rescaled linearly
into the adjustment range with no clamping, and the cost is the previous-year
cost times (1 + adjustment). -/
theorem c7_cost_schedule_recurrence (control_costs : List ℚ) (rng : ℚ × ℚ)
    (years : ℕ) (samples : List (List ℚ)) (numSamples : ℕ)
    (hrows : samples.length = numSamples)
    (hbudget : control_costs.length * years ≤ numSamples) :
    (calculate_compounding_costs control_costs rng years samples
        numSamples).getD 0 [] =
      control_costs.map (fun c => (⟨c, 0⟩ : CostEntry)) ∧
    (∀ y < years, ∀ idx < control_costs.length,
      (((calculate_compounding_costs control_costs rng years samples
          numSamples).getD (y + 1) []).getD idx default).adjustment =
        ratMean (((samples.map (fun r =>
            r.getD (idx % (samples.headD []).length) 0)).drop
          ((y * control_costs.length + idx) *
            (max 1 (numSamples / (control_costs.length * years))))).take
          (max 1 (numSamples / (control_costs.length * years)))) *
          (rng.2 - rng.1) + rng.1 ∧
      (((samples.map (fun r =>
            r.getD (idx % (samples.headD []).length) 0)).drop
          ((y * control_costs.length + idx) *
            (max 1 (numSamples / (control_costs.length * years))))).take
          (max 1 (numSamples / (control_costs.length * years)))).length =
        max 1 (numSamples / (control_costs.length * years)) ∧
      (((calculate_compounding_costs control_costs rng years samples
          numSamples).getD (y + 1) []).getD idx default).cost =
        (((calculate_compounding_costs control_costs rng years samples
          numSamples).getD y []).getD idx default).cost *
        (1 + (((calculate_compounding_costs control_costs rng years samples
          numSamples).getD (y + 1) []).getD idx default).adjustment)) := by
  constructor
  · rw [schedule_getD control_costs rng years samples numSamples
      (Nat.zero_le years)]
    rfl
  · intro y hy idx hidx
    have hC : 0 < control_costs.length := Nat.lt_of_le_of_lt (Nat.zero_le idx) hidx
    have hy1 : y + 1 ≤ years := hy
    rw [schedule_getD control_costs rng years samples numSamples hy1,
      schedule_getD control_costs rng years samples numSamples
        (Nat.le_of_succ_le hy1),
      costRow_succ_getD control_costs rng years samples numSamples hidx]
    refine ⟨?_, ?_, ?_⟩
    · simp only [adjustmentFor, Nat.add_sub_cancel]
    · set n_avg := max 1 (numSamples / (control_costs.length * years)) with hna
      have hnv : n_avg = numSamples / (control_costs.length * years) := by
        have hCy : 0 < control_costs.length * years := by
          rcases Nat.eq_zero_or_pos (control_costs.length * years) with h0 | h0
          · have := hy
            have := hC
            rcases Nat.mul_eq_zero.1 h0 with h | h <;> omega
          · exact h0
        have h1 : 1 ≤ numSamples / (control_costs.length * years) :=
          (Nat.one_le_div_iff hCy).2 hbudget
        omega
      have hcol : (samples.map (fun r =>
          r.getD (idx % (samples.headD []).length) 0)).length = numSamples := by
        rw [List.length_map, hrows]
      have hstart : (y * control_costs.length + idx + 1) * n_avg ≤ numSamples := by
        have hslot : y * control_costs.length + idx + 1 ≤
            control_costs.length * years := by
          have h2 : y * control_costs.length + idx + 1 ≤
              (y + 1) * control_costs.length := by
            have := Nat.succ_le_of_lt hidx
            calc y * control_costs.length + idx + 1 ≤
                y * control_costs.length + control_costs.length := by omega
              _ = (y + 1) * control_costs.length := by ring
          calc y * control_costs.length + idx + 1 ≤
              (y + 1) * control_costs.length := h2
            _ ≤ years * control_costs.length :=
              Nat.mul_le_mul_right _ (Nat.succ_le_of_lt hy)
            _ = control_costs.length * years := Nat.mul_comm _ _
        calc (y * control_costs.length + idx + 1) * n_avg ≤
            (control_costs.length * years) * n_avg :=
              Nat.mul_le_mul_right _ hslot
          _ = (control_costs.length * years) *
              (numSamples / (control_costs.length * years)) := by rw [hnv]
          _ = (numSamples / (control_costs.length * years)) *
              (control_costs.length * years) := Nat.mul_comm _ _
          _ ≤ numSamples := Nat.div_mul_le_self _ _
      rw [List.length_take, List.length_drop, hcol]
      have : (y * control_costs.length + idx) * n_avg + n_avg ≤ numSamples := by
        calc (y * control_costs.length + idx) * n_avg + n_avg =
            (y * control_costs.length + idx + 1) * n_avg := by ring
          _ ≤ numSamples := hstart
      omega
    · ring

theorem c7_cost_schedule_recurrence_witness :
    ((List.replicate 8 ([1/2, 1/2] : List ℚ)).length = 8 ∧
      ([1000, 2000] : List ℚ).length * 2 ≤ 8) ∧
    (calculate_compounding_costs [1000, 2000] (0, 1/10) 2
      (List.replicate 8 [1/2, 1/2]) 8).getD 0 [] =
      ([1000, 2000] : List ℚ).map (fun c => (⟨c, 0⟩ : CostEntry)) :=
  ⟨⟨by decide, by decide⟩,
    (c7_cost_schedule_recurrence [1000, 2000] (0, 1/10) 2
      (List.replicate 8 [1/2, 1/2]) 8 (by decide) (by decide)).1⟩

/-! Indexing lemma for the per-year entries. -/

theorem yearEntriesFrom_total_cost (asset : ℚ) (costs : List (List CostEntry))
    (efRow aroRow : List ℚ) (perm : List ℕ) (reductions : List ℚ) :
    ∀ (n y0 k : ℕ) (prev : ℚ), k < n →
      ((yearEntriesFrom asset costs efRow aroRow perm reductions n y0
        prev).getD k default).total_cost =
      ((perm.take (y0 + k + 1)).map (fun c =>
        costEntryAt costs (y0 + k + 1) c)).sum := by
  intro n
  induction n with
  | zero => intro y0 k prev hk; omega
  | succ n ih =>
    intro y0 k prev hk
    rw [yearEntriesFrom]
    cases k with
    | zero => simp
    | succ k =>
      rw [List.getD_cons_succ]
      have hrw : y0 + 1 + k + 1 = y0 + (k + 1) + 1 := by omega
      rw [ih (y0 + 1) k _ (by omega), hrw]

/-- C2 (amended): the total_rosi of a permutation entry equals the mean over
all samples of the per-sample sums of per-year ROSI values; the reported
per-year entries are the ones of the final sample, so the sum of the reported
per-year ROSI values equals total_rosi whenever every sample row coincides
with the first row (in particular whenever every range is fixed), but not in
general. -/
theorem c2_total_rosi_mean_of_sums (asset : ℚ) (costs : List (List CostEntry))
    (ef_samples aro_samples : List (List ℚ)) (perm : List ℕ)
    (reductions : List ℚ) {n : ℕ} (hn : n ≠ 0) :
    (calculate_statistics_for_permutation_per_year asset costs ef_samples
      aro_samples perm reductions n).total_rosi =
      ratMean ((List.range n).map (fun i =>
        ((sampleYearEntries asset costs (ef_samples.getD i [])
          (aro_samples.getD i []) perm reductions).map YearEntry.rosi).sum)) ∧
    ((∀ i < n, ef_samples.getD i [] = ef_samples.getD 0 [] ∧
        aro_samples.getD i [] = aro_samples.getD 0 []) →
      ((calculate_statistics_for_permutation_per_year asset costs ef_samples
        aro_samples perm reductions n).years.map YearEntry.rosi).sum =
      (calculate_statistics_for_permutation_per_year asset costs ef_samples
        aro_samples perm reductions n).total_rosi) := by
  constructor
  · rfl
  · intro hrows
    have hconst : (List.range n).map (fun i =>
        ((sampleYearEntries asset costs (ef_samples.getD i [])
          (aro_samples.getD i []) perm reductions).map YearEntry.rosi).sum) =
        List.replicate n (((sampleYearEntries asset costs (ef_samples.getD 0 [])
          (aro_samples.getD 0 []) perm reductions).map YearEntry.rosi).sum) := by
      refine map_range_eq_replicate ?_
      intro i hi
      rw [(hrows i hi).1, (hrows i hi).2]
    show ((sampleYearEntries asset costs (ef_samples.getD (n - 1) [])
        (aro_samples.getD (n - 1) []) perm reductions).map
        YearEntry.rosi).sum = _
    rw [(hrows (n - 1) (by omega)).1, (hrows (n - 1) (by omega)).2]
    show _ = ratMean ((List.range n).map _)
    rw [hconst, ratMean_replicate hn]

theorem c2_total_rosi_mean_of_sums_witness :
    (2 : ℕ) ≠ 0 ∧
    (calculate_statistics_for_permutation_per_year 100000
      (calculate_compounding_costs [1000] (0, 0) 1 [[0], [0]] 2)
      [[1/2], [1/2]] [[1], [1]] [1] [1/2] 2).total_rosi =
      ratMean ((List.range 2).map (fun i =>
        ((sampleYearEntries 100000
          (calculate_compounding_costs [1000] (0, 0) 1 [[0], [0]] 2)
          (([[1/2], [1/2]] : List (List ℚ)).getD i [])
          (([[1], [1]] : List (List ℚ)).getD i []) [1] [1/2]).map
          YearEntry.rosi).sum)) :=
  ⟨by decide,
    (c2_total_rosi_mean_of_sums 100000
      (calculate_compounding_costs [1000] (0, 0) 1 [[0], [0]] 2)
      [[1/2], [1/2]] [[1], [1]] [1] [1/2] (by decide)).1⟩

/-- C2 (counterexample): a scenario evaluated at two samples whose exposure
draws differ (such rows arise whenever the EF range varies): the sum of the
reported per-year ROSI values is 400 while total_rosi is 1400, far beyond any
floating-point tolerance. -/
theorem c2_counterexample :
    ((calculate_statistics_for_permutation_per_year 100000
      (calculate_compounding_costs [1000] (0, 0) 1 [[0], [0]] 2)
      [[1/2], [1/10]] [[1], [1]] [1] [1/2] 2).years.map
        YearEntry.rosi).sum = 400 ∧
    (calculate_statistics_for_permutation_per_year 100000
      (calculate_compounding_costs [1000] (0, 0) 1 [[0], [0]] 2)
      [[1/2], [1/10]] [[1], [1]] [1] [1/2] 2).total_rosi = 1400 ∧
    (400 : ℚ) ≠ 1400 := by
  refine ⟨?_, ?_, by norm_num⟩ <;>
    norm_num [calculate_statistics_for_permutation_per_year, sampleYearEntries,
      yearEntriesFrom, calculate_ale, calculate_rosi, costEntryAt,
      calculate_compounding_costs, costRow, adjustmentFor, ratMean,
      List.range_succ]

/-- C3 (amended): the total_cost reported for year y sums, over the controls
applied in years 1..y, the cost of each control compounded to the CURRENT
year y (the inner lookup of lines 249-254 reads every cost from the year y
table), not the cost at the year each control was applied. -/
theorem c3_cumulative_cost_current_year (asset : ℚ)
    (costs : List (List CostEntry)) (ef_samples aro_samples : List (List ℚ))
    (perm : List ℕ) (reductions : List ℚ) (numSims : ℕ) {y : ℕ}
    (hy : y < perm.length) :
    (((calculate_statistics_for_permutation_per_year asset costs ef_samples
      aro_samples perm reductions numSims).years.getD y default).total_cost) =
      ((perm.take (y + 1)).map (fun c => costEntryAt costs (y + 1) c)).sum := by
  show ((sampleYearEntries asset costs _ _ perm reductions).getD y
    default).total_cost = _
  unfold sampleYearEntries
  have h := yearEntriesFrom_total_cost asset costs
    (ef_samples.getD (numSims - 1) []) (aro_samples.getD (numSims - 1) [])
    perm reductions perm.length 0 y 0 hy
  simpa using h

theorem c3_cumulative_cost_current_year_witness :
    (1 : ℕ) < ([1, 2] : List ℕ).length ∧
    (((calculate_statistics_for_permutation_per_year 100000
      (calculate_compounding_costs [1000, 2000] (1/10, 1/10) 2 [[0, 0]] 4)
      [[1/2, 1/2]] [[1, 1]] [1, 2] [1/2, 3/10] 1).years.getD 1
        default).total_cost) = 3630 :=
  ⟨by decide,
    (c3_cumulative_cost_current_year 100000
      (calculate_compounding_costs [1000, 2000] (1/10, 1/10) 2 [[0, 0]] 4)
      [[1/2, 1/2]] [[1, 1]] [1, 2] [1/2, 3/10] 1 (by decide)).trans
      (by norm_num [calculate_compounding_costs, costRow, adjustmentFor,
        ratMean, costEntryAt, List.range_succ])⟩

/-- C3 (counterexample): with base costs 1000 and 2000, a fixed 10 percent
yearly cost adjustment and permutation (1, 2), the code reports a year-2
total_cost of 3630 (both controls priced at their year-2 compounded costs
1210 + 2420), while the claim formula (control applied in year k contributes
its year-k compounded cost) gives 1100 + 2420 = 3520. -/
theorem c3_counterexample :
    (((calculate_statistics_for_permutation_per_year 100000
      (calculate_compounding_costs [1000, 2000] (1/10, 1/10) 2 [[0, 0]] 4)
      [[1/2, 1/2]] [[1, 1]] [1, 2] [1/2, 3/10] 1).years.getD 1
        default).total_cost) = 3630 ∧
    claimedCumulativeCost
      (calculate_compounding_costs [1000, 2000] (1/10, 1/10) 2 [[0, 0]] 4)
      [1, 2] 1 = 3520 ∧
    (3630 : ℚ) ≠ 3520 := by
  refine ⟨?_, ?_, by norm_num⟩ <;>
    norm_num [calculate_statistics_for_permutation_per_year, sampleYearEntries,
      yearEntriesFrom, calculate_ale, calculate_rosi, costEntryAt,
      claimedCumulativeCost, calculate_compounding_costs, costRow,
      adjustmentFor, ratMean, List.range_succ]

/-! General properties of the permutation ranking. -/

theorem rankedPermutations_length (asset : ℚ) (costs : List (List CostEntry))
    (efs aros : List (List ℚ)) (red : List ℚ) (ny ns : ℕ) :
    (rankedPermutations asset costs efs aros red ny ns).length =
      Nat.factorial ny := by
  unfold rankedPermutations
  rw [length_sortDescBy, List.length_map, length_itertoolsPermutations,
    List.length_range']

theorem rankedPermutations_sorted (asset : ℚ) (costs : List (List CostEntry))
    (efs aros : List (List ℚ)) (red : List ℚ) (ny ns : ℕ) :
    (rankedPermutations asset costs efs aros red ny ns).Pairwise
      (fun a b => b.total_rosi ≤ a.total_rosi) :=
  sortDescBy_pairwise _ _

theorem rankedPermutations_map_perm (asset : ℚ)
    (costs : List (List CostEntry)) (efs aros : List (List ℚ)) (red : List ℚ)
    (ny ns : ℕ) :
    (rankedPermutations asset costs efs aros red ny ns).map
      PermutationResult.permutation ~ itertoolsPermutations (List.range' 1 ny) := by
  unfold rankedPermutations
  refine ((sortDescBy_perm _ _).map _).trans ?_
  rw [List.map_map]
  have : (PermutationResult.permutation ∘ fun perm =>
      calculate_statistics_for_permutation_per_year asset costs efs aros perm
        red ns) = id := by
    funext q
    rfl
  rw [this, List.map_id]

theorem rankedPermutations_mem (asset : ℚ) (costs : List (List CostEntry))
    (efs aros : List (List ℚ)) (red : List ℚ) (ny ns : ℕ) (q : List ℕ) :
    q ∈ (rankedPermutations asset costs efs aros red ny ns).map
      PermutationResult.permutation ↔ q ~ List.range' 1 ny := by
  rw [(rankedPermutations_map_perm asset costs efs aros red ny ns).mem_iff,
    mem_itertoolsPermutations]

theorem rankedPermutations_nodup (asset : ℚ) (costs : List (List CostEntry))
    (efs aros : List (List ℚ)) (red : List ℚ) (ny ns : ℕ) :
    ((rankedPermutations asset costs efs aros red ny ns).map
      PermutationResult.permutation).Nodup :=
  (rankedPermutations_map_perm asset costs efs aros red ny ns).symm.nodup
    (nodup_itertoolsPermutations (List.nodup_range' 1 ny))

/-- C4: for every scenario with N controls (num_years = number of controls),
ranked_permutations holds exactly N! entries, one for each ordering of
controls 1..N (a list of permutations without duplicates whose members are
exactly the orderings), sorted descending by total_rosi; and the sort used is
stable: any two evaluated entries with equal total_rosi keep, in the ranked
list, the order in which their permutations were enumerated. -/
theorem c4_ranked_permutations (p : SeqParams)
    (hN : p.num_years = p.control_costs.length) :
    ((simulate_control_sequence_optimization p).ranked_permutations.length =
      Nat.factorial p.control_costs.length) ∧
    ((simulate_control_sequence_optimization p).ranked_permutations.Pairwise
      (fun a b => b.total_rosi ≤ a.total_rosi)) ∧
    (∀ q : List ℕ,
      q ∈ (simulate_control_sequence_optimization p).ranked_permutations.map
        PermutationResult.permutation ↔ q ~ List.range' 1 p.num_years) ∧
    (((simulate_control_sequence_optimization p).ranked_permutations.map
      PermutationResult.permutation).Nodup) ∧
    (∀ (asset : ℚ) (costs : List (List CostEntry))
      (efs aros : List (List ℚ)) (red : List ℚ) (ns : ℕ)
      (a b : PermutationResult),
      [a, b] <+ (itertoolsPermutations (List.range' 1 p.num_years)).map
        (fun perm => calculate_statistics_for_permutation_per_year asset costs
          efs aros perm red ns) →
      a.total_rosi = b.total_rosi →
      [a, b] <+ rankedPermutations asset costs efs aros red p.num_years ns) := by
  refine ⟨?_, ?_, ?_, ?_, ?_⟩
  · rw [← hN]
    exact rankedPermutations_length _ _ _ _ _ _ _
  · exact rankedPermutations_sorted _ _ _ _ _ _ _
  · intro q
    exact rankedPermutations_mem _ _ _ _ _ _ _ q
  · exact rankedPermutations_nodup _ _ _ _ _ _ _
  · intro asset costs efs aros red ns a b h hkey
    exact pair_sublist_sortDescBy h hkey

theorem c4_ranked_permutations_witness :
    (seqFixedExample.num_years = seqFixedExample.control_costs.length) ∧
    ((simulate_control_sequence_optimization
      seqFixedExample).ranked_permutations.length = 2) ∧
    ([2, 1] ∈ (simulate_control_sequence_optimization
      seqFixedExample).ranked_permutations.map
        PermutationResult.permutation) := by
  have h := c4_ranked_permutations seqFixedExample (by decide)
  refine ⟨by decide, ?_, ?_⟩
  · have h1 := h.1
    simpa using h1
  · exact (h.2.2.1 [2, 1]).2 (by decide)

/-- C6: whenever every supplied range collapses to a point, the sensitivity
results of both entry points are empty while the decision outputs are still
fully populated: the sequencing entry still ranks all num_years! permutations
and the vendor entry still produces one statistics record per vendor. -/
theorem c6_fixed_degeneracy (p : SeqParams) (q : VendorParams)
    (hef : p.ef_range.1 = p.ef_range.2) (haro : p.aro_range.1 = p.aro_range.2)
    (hcost : p.cost_adjustment_range.1 = p.cost_adjustment_range.2)
    (hqef : q.ef_range.1 = q.ef_range.2)
    (hqaro : q.aro_range.1 = q.aro_range.2)
    (hqrrs : ∀ r ∈ q.control_reduction_ranges, r.1 = r.2)
    (hqns : q.num_samples ≠ 0) :
    (simulate_control_sequence_optimization p).sensitivity_results = [] ∧
    (simulate_control_sequence_optimization p).ranked_permutations.length =
      Nat.factorial p.num_years ∧
    (simulate_vendor_assessment_decision q).sensitivity_analysis = [] ∧
    (simulate_vendor_assessment_decision q).vendor_statistics.length =
      q.num_vendors := by
  have hs := simulateSeq_allFixed RANDOM_SEED p hef haro hcost
  have hv := simulateVendor_allFixed RANDOM_SEED q hqef hqaro hqrrs hqns
  refine ⟨?_, ?_, ?_, ?_⟩
  · show (simulateControlSequenceWithSeed RANDOM_SEED p).sensitivity_results = []
    rw [hs]
  · exact rankedPermutations_length _ _ _ _ _ _ _
  · show (simulateVendorAssessmentWithSeed RANDOM_SEED q).sensitivity_analysis = []
    rw [hv]
  · show (simulateVendorAssessmentWithSeed RANDOM_SEED q).vendor_statistics.length = _
    rw [hv]
    simp

theorem c6_fixed_degeneracy_witness :
    ((1/2 : ℚ) = 1/2 ∧ (16384 : ℕ) ≠ 0) ∧
    (simulate_control_sequence_optimization seqFixedExample).sensitivity_results
      = [] ∧
    (simulate_vendor_assessment_decision vendorFixedExample).sensitivity_analysis
      = [] := by
  have hr2 : ∀ r ∈ vendorFixedExample.control_reduction_ranges, r.1 = r.2 := by
    intro r hr
    simp only [vendorFixedExample, List.mem_cons, List.not_mem_nil,
      or_false] at hr
    rcases hr with rfl | rfl <;> rfl
  have h := c6_fixed_degeneracy seqFixedExample vendorFixedExample rfl rfl rfl
    rfl rfl hr2 (by decide)
  exact ⟨⟨rfl, by decide⟩, h.1, h.2.2.1⟩

/-- C10: neither entry point takes a seed: each is the seed-indexed pipeline
applied at the fixed module constant RANDOM_SEED = 42, so the result is a
function of the scenario arguments alone and two calls with equal arguments
return identical results. -/
theorem c10_fixed_seed_determinism :
    RANDOM_SEED = 42 ∧
    (∀ p : SeqParams, simulate_control_sequence_optimization p =
      simulateControlSequenceWithSeed 42 p) ∧
    (∀ q : VendorParams, simulate_vendor_assessment_decision q =
      simulateVendorAssessmentWithSeed 42 q) ∧
    (∀ p p' : SeqParams, p = p' → simulate_control_sequence_optimization p =
      simulate_control_sequence_optimization p') ∧
    (∀ q q' : VendorParams, q = q' → simulate_vendor_assessment_decision q =
      simulate_vendor_assessment_decision q') :=
  ⟨rfl, fun _ => rfl, fun _ => rfl, fun _ _ h => by rw [h],
    fun _ _ h => by rw [h]⟩

theorem c10_fixed_seed_determinism_witness :
    simulate_control_sequence_optimization seqFixedExample =
      simulate_control_sequence_optimization seqFixedExample ∧
    simulate_vendor_assessment_decision vendorFixedExample =
      simulate_vendor_assessment_decision vendorFixedExample :=
  ⟨(c10_fixed_seed_determinism.2.2.2.1 seqFixedExample seqFixedExample rfl),
    (c10_fixed_seed_determinism.2.2.2.2 vendorFixedExample vendorFixedExample
      rfl)⟩

/-- C8 (amended): only the vendor route validates ranges.  For every vendor
query in which the EF range, the ARO range or some control reduction range
has minimum above maximum, the route raises a validation error before calling
the engine; the sequencing route performs no minimum-versus-maximum check on
any of its three ranges, so such scenarios pass its validation and reach the
sampler (which then fails inside the external sampling library without a
field-named validation error). -/
theorem c8_range_validation (q : VendorQuery)
    (hq : q.exposure_factor_min > q.exposure_factor_max ∨
      q.annual_rate_of_occurrence_min > q.annual_rate_of_occurrence_max ∨
      ∃ i < q.control_reduction_mins.length,
        q.control_reduction_maxs.getD i 0 < q.control_reduction_mins.getD i 0) :
    (∃ msg, vendorRouteValidate q = .error msg) ∧
    (∃ s : SeqQuery, s.exposure_factor_min > s.exposure_factor_max ∧
      seqRouteValidate s = .ok ()) := by
  constructor
  · unfold vendorRouteValidate
    split_ifs with h1 h2 h3 h4 h5 h6
    all_goals try exact ⟨_, rfl⟩
    · exfalso
      rcases hq with h | h | ⟨i, hi, hgt⟩
      · exact h3 h
      · exact h4 h
      · have hall5 := h5 i (List.mem_range.2 hi)
        exact absurd hgt (not_lt.2 hall5.2.1)
  · refine ⟨seqBadRangeQuery, by norm_num [seqBadRangeQuery], ?_⟩
    unfold seqRouteValidate seqBadRangeQuery
    norm_num

/-- C8 (counterexample): a sequencing query whose EF range has minimum 0.6
above maximum 0.4 passes the sequencing route validation untouched (the route
checks only list lengths, reduction bounds and cost positivity) even though
the claim requires a validation error in both entry paths. -/
theorem c8_counterexample :
    seqBadRangeQuery.exposure_factor_min > seqBadRangeQuery.exposure_factor_max ∧
    seqRouteValidate seqBadRangeQuery = .ok () := by
  constructor
  · norm_num [seqBadRangeQuery]
  · unfold seqRouteValidate seqBadRangeQuery
    norm_num

theorem c8_range_validation_witness :
    (vendorBadRangeQuery.exposure_factor_min >
        vendorBadRangeQuery.exposure_factor_max ∨
      vendorBadRangeQuery.annual_rate_of_occurrence_min >
        vendorBadRangeQuery.annual_rate_of_occurrence_max ∨
      ∃ i < vendorBadRangeQuery.control_reduction_mins.length,
        vendorBadRangeQuery.control_reduction_maxs.getD i 0 <
          vendorBadRangeQuery.control_reduction_mins.getD i 0) ∧
    ∃ msg, vendorRouteValidate vendorBadRangeQuery = .error msg :=
  ⟨Or.inl (by norm_num [vendorBadRangeQuery]),
    (c8_range_validation vendorBadRangeQuery
      (Or.inl (by norm_num [vendorBadRangeQuery]))).1⟩

/-- C9 (amended): the sequencing entry returns a JSON object with exactly the
keys simulation_parameters, results, ranked_permutations and
sensitivity_results; the vendor entry returns the keys input_parameters,
vendor_statistics, best_vendor, most_effective_vendor and
sensitivity_analysis instead (there is no results key and the echo and
sensitivity keys have different names). -/
theorem c9_top_level_keys :
    (∀ p : SeqParams,
      (seqExportJson (simulate_control_sequence_optimization p)).topKeys =
        ["simulation_parameters", "results", "ranked_permutations",
          "sensitivity_results"]) ∧
    (∀ q : VendorParams,
      (vendorExportJson (simulate_vendor_assessment_decision q)).topKeys =
        ["input_parameters", "vendor_statistics", "best_vendor",
          "most_effective_vendor", "sensitivity_analysis"]) :=
  ⟨fun _ => rfl, fun _ => rfl⟩

/-- C9 (counterexample): the vendor entry does not return the key set the
claim states (simulation_parameters, results, vendor_statistics,
sensitivity_results); its actual top-level keys differ. -/
theorem c9_counterexample :
    (vendorExportJson (simulate_vendor_assessment_decision
      vendorFixedExample)).topKeys =
      ["input_parameters", "vendor_statistics", "best_vendor",
        "most_effective_vendor", "sensitivity_analysis"] ∧
    (["input_parameters", "vendor_statistics", "best_vendor",
        "most_effective_vendor", "sensitivity_analysis"] : List String) ≠
      ["simulation_parameters", "results", "vendor_statistics",
        "sensitivity_results"] :=
  ⟨rfl, by decide⟩

/-! Concrete evaluation of the two degenerate example scenarios. -/

theorem seqFixedExample_eval :
    simulate_control_sequence_optimization seqFixedExample =
      { simulation_parameters := seqFixedExample
        best_permutation := [1, 2]
        best_rosi := 5900/3
        control_cost_values := List.replicate 3 [⟨1000, 0⟩, ⟨2000, 0⟩]
        ranked_permutations := [
          { permutation := [1, 2]
            years := [⟨50000, 25000, 1000, 1000, 2400⟩,
                      ⟨25000, 35000, 2000, 3000, -1300/3⟩]
            total_rosi := 5900/3 },
          { permutation := [2, 1]
            years := [⟨50000, 35000, 2000, 2000, 650⟩,
                      ⟨35000, 25000, 1000, 3000, 700/3⟩]
            total_rosi := 2650/3 }]
        sensitivity_results := [] } := by
  have hns : NUM_SAMPLES ≠ 0 := by norm_num [NUM_SAMPLES]
  have hco := simulateSeq_allFixed RANDOM_SEED seqFixedExample rfl rfl rfl
  have hsched : calculate_compounding_costs [1000, 2000] (0, 0) 2
      (List.replicate NUM_SAMPLES (List.replicate 2 (0 : ℚ))) NUM_SAMPLES =
      List.replicate 3 [⟨1000, 0⟩, ⟨2000, 0⟩] := by
    rw [calculate_compounding_costs_const rfl]
    norm_num [List.map_const', List.range_succ]
    rfl
  have hE12 : sampleYearEntries 100000 (List.replicate 3 [⟨1000, 0⟩, ⟨2000, 0⟩])
      (List.replicate 2 (1/2)) (List.replicate 2 1) [1, 2] [1/2, 3/10] =
      [⟨50000, 25000, 1000, 1000, 2400⟩,
        ⟨25000, 35000, 2000, 3000, -1300/3⟩] := by
    norm_num [sampleYearEntries, yearEntriesFrom, costEntryAt, calculate_ale,
      calculate_rosi, List.replicate, YearEntry.mk.injEq]
  have hE21 : sampleYearEntries 100000 (List.replicate 3 [⟨1000, 0⟩, ⟨2000, 0⟩])
      (List.replicate 2 (1/2)) (List.replicate 2 1) [2, 1] [1/2, 3/10] =
      [⟨50000, 35000, 2000, 2000, 650⟩,
        ⟨35000, 25000, 1000, 3000, 700/3⟩] := by
    norm_num [sampleYearEntries, yearEntriesFrom, costEntryAt, calculate_ale,
      calculate_rosi, List.replicate, YearEntry.mk.injEq]
  have hrk : rankedPermutations 100000
      (List.replicate 3 [⟨1000, 0⟩, ⟨2000, 0⟩])
      (List.replicate NUM_SAMPLES (List.replicate 2 (1/2)))
      (List.replicate NUM_SAMPLES (List.replicate 2 1)) [1/2, 3/10] 2
      NUM_SAMPLES =
      [ { permutation := [1, 2]
          years := [⟨50000, 25000, 1000, 1000, 2400⟩,
                    ⟨25000, 35000, 2000, 3000, -1300/3⟩]
          total_rosi := 5900/3 },
        { permutation := [2, 1]
          years := [⟨50000, 35000, 2000, 2000, 650⟩,
                    ⟨35000, 25000, 1000, 3000, 700/3⟩]
          total_rosi := 2650/3 }] := by
    unfold rankedPermutations
    have hperm2 : itertoolsPermutations (List.range' 1 2) = [[1, 2], [2, 1]] := by
      decide
    rw [hperm2, List.map_cons, List.map_cons, List.map_nil,
      stats_replicate_collapse hns, stats_replicate_collapse hns, hE12, hE21]
    norm_num [sortDescBy, insertDescBy]
  refine hco.trans ?_
  simp only [seqFixedExample] at hrk hsched ⊢
  rw [hsched, hrk]
  norm_num [List.headD]

/-- C1 (amended): on the degenerate sequencing example the engine reports for
permutation (1,2) year-1 ROSI 2400 percent and year-2 ROSI -1300/3 percent
(about -433.33: year 2 prices both controls at the cumulative cost 3000 and
compares the residual ALE 25000 with an ALE-after of 35000 computed from the
fresh ARO draw), total 5900/3 percent (about 1966.67); for permutation (2,1)
year-1 ROSI 650 percent, year-2 ROSI 700/3 percent (about 233.33), total
2650/3 percent (about 883.33); best_permutation is (1,2) with best_rosi
5900/3 percent. -/
theorem c1_sequencing_example_actual :
    (simulate_control_sequence_optimization seqFixedExample).best_permutation
      = [1, 2] ∧
    (simulate_control_sequence_optimization seqFixedExample).best_rosi =
      5900/3 ∧
    (simulate_control_sequence_optimization
      seqFixedExample).ranked_permutations.map
      (fun r => (r.permutation, r.years.map YearEntry.rosi, r.total_rosi)) =
      [([1, 2], [2400, -1300/3], 5900/3), ([2, 1], [650, 700/3], 2650/3)] := by
  rw [seqFixedExample_eval]
  norm_num

/-- C1 (counterexample): the engine reports best_rosi 5900/3 percent, not the
2675 percent the claim states, and the year-2 ROSI of permutation (1,2) is
-1300/3 percent, not 275 percent. -/
theorem c1_counterexample :
    (simulate_control_sequence_optimization seqFixedExample).best_rosi =
      5900/3 ∧
    ((5900 : ℚ)/3) ≠ 2675 ∧
    (simulate_control_sequence_optimization
      seqFixedExample).ranked_permutations.map
      (fun r => r.years.map YearEntry.rosi) =
      [[2400, -1300/3], [650, 700/3]] ∧
    ((-1300 : ℚ)/3) ≠ 275 := by
  rw [seqFixedExample_eval]
  norm_num

theorem vendorFixedExample_eval :
    simulate_vendor_assessment_decision vendorFixedExample =
      { input_parameters := vendorFixedExample
        vendor_statistics := [
          { vendor_id := 1
            control_cost := 5000
            control_reduction_range := (1/2, 1/2)
            mean_ale_before := 50000
            median_ale_before := 50000
            mean_ale_after := 25000
            median_ale_after := 25000
            mean_ale_reduction := 1/2
            mean_rosi := 400
            median_rosi := 400 },
          { vendor_id := 2
            control_cost := 500
            control_reduction_range := (3/10, 3/10)
            mean_ale_before := 50000
            median_ale_before := 50000
            mean_ale_after := 35000
            median_ale_after := 35000
            mean_ale_reduction := 3/10
            mean_rosi := 2900
            median_rosi := 2900 }]
        best_vendor := [2, 1]
        most_effective_vendor := [1, 2]
        sensitivity_analysis := [] } := by
  have hr2 : ∀ r ∈ vendorFixedExample.control_reduction_ranges, r.1 = r.2 := by
    intro r hr
    simp only [vendorFixedExample, List.mem_cons, List.not_mem_nil,
      or_false] at hr
    rcases hr with rfl | rfl <;> rfl
  have hv := simulateVendor_allFixed RANDOM_SEED vendorFixedExample rfl rfl hr2
    (by norm_num [vendorFixedExample, NUM_SAMPLES])
  refine hv.trans ?_
  have hstats : (List.range vendorFixedExample.num_vendors).map
      (vendorPointStat vendorFixedExample) =
      [ { vendor_id := 1
          control_cost := 5000
          control_reduction_range := (1/2, 1/2)
          mean_ale_before := 50000
          median_ale_before := 50000
          mean_ale_after := 25000
          median_ale_after := 25000
          mean_ale_reduction := 1/2
          mean_rosi := 400
          median_rosi := 400 },
        { vendor_id := 2
          control_cost := 500
          control_reduction_range := (3/10, 3/10)
          mean_ale_before := 50000
          median_ale_before := 50000
          mean_ale_after := 35000
          median_ale_after := 35000
          mean_ale_reduction := 3/10
          mean_rosi := 2900
          median_rosi := 2900 }] := by
    norm_num [vendorPointStat, vendorFixedExample, List.range_succ,
      calculate_ale, calculate_rosi, VendorStat.mk.injEq]
  rw [hstats]
  norm_num [sortDescBy, insertDescBy, sortAscBy, insertAscBy]

/-- C5: on the degenerate vendor example both vendors have mean ALE-before
50000; vendor A has mean ALE-after 25000 and mean ROSI 400 percent, vendor B
has mean ALE-after 35000 and mean ROSI 2900 percent; best_vendor ranks B
first (by ROSI) while most_effective_vendor ranks A first (by residual ALE),
so the two orderings differ. -/
theorem c5_vendor_dual_ranking :
    (simulate_vendor_assessment_decision
      vendorFixedExample).vendor_statistics.map
      (fun s => (s.vendor_id, s.mean_ale_before, s.mean_ale_after,
        s.mean_rosi)) =
      [(1, 50000, 25000, 400), (2, 50000, 35000, 2900)] ∧
    (simulate_vendor_assessment_decision vendorFixedExample).best_vendor =
      [2, 1] ∧
    (simulate_vendor_assessment_decision
      vendorFixedExample).most_effective_vendor = [1, 2] ∧
    (simulate_vendor_assessment_decision vendorFixedExample).best_vendor ≠
      (simulate_vendor_assessment_decision
        vendorFixedExample).most_effective_vendor := by
  rw [vendorFixedExample_eval]
  refine ⟨by norm_num, rfl, rfl, by decide⟩
